import Mathlib

/-!
Verification of the Normalization + Diff Engine of the profile-comparison
repository.

The engine's data model and operations are embedded shallowly:

* JavaScript `Record<string, V>` objects and `Map<string, V>` maps are
  modelled as insertion-ordered association lists (`JMap V`) whose update
  operation (`aset`) overwrites the value in place when the key is present
  and appends otherwise, exactly as JS property assignment / `Map.set` do.
* JavaScript `Set<string>` construction is modelled by `jsSetOf`, which
  deduplicates keeping first occurrences in insertion order.
* `Array.prototype.sort()` on string arrays (default comparator, i.e.
  ascending lexicographic order) is modelled by `List.insertionSort (· ≤ ·)`;
  since equal strings are indistinguishable the choice of stable sorting
  algorithm does not affect the result.
* `Field.split('.')` is modelled by `jsSplitDot`, which splits on every
  dot and keeps empty segments, as the JS method does.
* The asynchronous fetches of `normalizeProfiles` are modelled by a
  `SourceData` record holding the record sets the Source Record Provider
  returns; a failed fetch corresponds to an empty record set, matching the
  code's degrade-to-empty behaviour.  The wall-clock `timestamp` of
  `compare` is passed in as an explicit argument.

`DiffLib` embeds the diff engine of `src/lib/diff.ts`; `DiffSrv` embeds the
duplicated diff engine of the backend service file; `ProfileNormalizer`
embeds `src/lib/normalizer.ts`.
-/

/-- Insertion-ordered association list modelling a JS `Record<string, V>`. -/
abbrev JMap (V : Type) := List (String × V)

/-- JS property read `m[k]`: value at the first (unique) occurrence of `k`. -/
def alookup {V : Type} : JMap V → String → Option V
  | [], _ => none
  | (k', v') :: rest, k => if k' = k then some v' else alookup rest k

/-- JS property write `m[k] = v` / `Map.set`: overwrite in place when the
key is present, append otherwise. -/
def aset {V : Type} : JMap V → String → V → JMap V
  | [], k, v => [(k, v)]
  | (k', v') :: rest, k, v =>
      if k' = k then (k, v) :: rest else (k', v') :: aset rest k v

/-- Add an element to a JS `Set` (keep first occurrence, insertion order). -/
def insertUniq {α : Type} [DecidableEq α] (l : List α) (x : α) : List α :=
  if x ∈ l then l else l ++ [x]

/-- `new Set(iterable)`: deduplicate keeping first occurrences. -/
def jsSetOf {α : Type} [DecidableEq α] (vs : List α) : List α :=
  vs.foldl insertUniq []

/-- Lexicographic comparison of character lists, the order JS string
comparison uses (`charListLe x y` iff `x ≤ y`). -/
def charListLe : List Char → List Char → Bool
  | [], _ => true
  | _ :: _, [] => false
  | a :: as, b :: bs =>
      if a < b then true
      else if b < a then false
      else charListLe as bs

/-- JS `Array.prototype.sort()` on a string array: ascending lexicographic
order (the algorithm's stability is irrelevant because equal strings are
identical; `charListLe` agrees with the standard string order, see
`charListLe_iff_le`). -/
def jsSort (l : List String) : List String :=
  l.insertionSort (fun a b => charListLe a.data b.data = true)

/-- JS `s.split('.')`: split on every dot, keeping empty segments
(`"A.".split('.') = ["A", ""]`, `"".split('.') = [""]`). -/
def jsSplitDotChars : List Char → List (List Char)
  | [] => [[]]
  | c :: rest =>
      if c = '.' then [] :: jsSplitDotChars rest
      else
        match jsSplitDotChars rest with
        | [] => [[c]]
        | g :: gs => (c :: g) :: gs

/-- JS `s.split('.')` on a Lean string. -/
def jsSplitDot (s : String) : List String :=
  (jsSplitDotChars s.data).map (fun cs => String.mk cs)

/-- The field-name extraction `fieldPerm.Field.split('.')[1] || fieldPerm.Field`
of both normalizer implementations: the second dot-separated segment when it
exists and is truthy (non-empty), otherwise the whole `Field` value. -/
def fieldNameOf (field : String) : String :=
  match (jsSplitDot field).get? 1 with
  | some s => if s = "" then field else s
  | none => field

/-! ### The canonical data model (`src/lib/types.ts`) -/

/-- `ObjectPermission`: the six boolean object-level sub-permissions. -/
structure ObjectPermission where
  read : Bool
  create : Bool
  edit : Bool
  delete : Bool
  viewAll : Bool
  modifyAll : Bool
deriving DecidableEq

/-- `FieldPermission`: the two boolean field-level sub-permissions. -/
structure FieldPermission where
  read : Bool
  edit : Bool
deriving DecidableEq

/-- `ObjectAccess`: object-level permissions plus a map of field permissions. -/
structure ObjectAccess where
  permissions : ObjectPermission
  fields : JMap FieldPermission
deriving DecidableEq

/-- `AppVisibility`: per-app visibility flags. -/
structure AppVisibility where
  visible : Bool
  default : Bool
deriving DecidableEq

/-- `NormalizedProfile`: the canonical per-profile document. -/
structure NormalizedProfile where
  profileId : String
  profileName : String
  objects : JMap ObjectAccess
  systemPermissions : JMap Bool
  apexClasses : List String
  visualforcePages : List String
  lightningPages : List String
  recordTypes : List String
  tabVisibilities : JMap String
  appVisibilities : JMap AppVisibility
  userPermissions : JMap Bool
deriving DecidableEq

/-- `DiffType`: classification of one compared key. -/
inductive DiffType where
  | added
  | removed
  | changed
  | unchanged
deriving DecidableEq

/-- `true` exactly on `DiffType.unchanged` (the `=== 'unchanged'` test). -/
def DiffType.isUnchanged : DiffType → Bool
  | .unchanged => true
  | _ => false

/-- A per-profile value recorded in a `DiffItem` (`Record<string, any>`
holding booleans, or strings for tab visibility). -/
inductive DiffValue where
  | b (v : Bool)
  | s (v : String)
deriving DecidableEq

/-- `DiffItem`: one atomic difference record. -/
structure DiffItem where
  path : String
  category : String
  objectName : Option String
  fieldName : Option String
  permissionName : Option String
  values : JMap DiffValue
  diffType : DiffType
deriving DecidableEq

/-- The summary counters of a `ComparisonResult`. -/
structure Summary where
  objectPermissions : Nat
  fieldPermissions : Nat
  systemPermissions : Nat
  apexClasses : Nat
  visualforcePages : Nat
  lightningPages : Nat
  recordTypes : Nat
  tabVisibilities : Nat
  appVisibilities : Nat
deriving DecidableEq

/-- `ComparisonResult`: the diff engine's output. -/
structure ComparisonResult where
  profiles : List (String × String)
  timestamp : String
  totalDifferences : Nat
  differences : List DiffItem
  summary : Summary
deriving DecidableEq

namespace DiffLib

/-- `DiffEngine.determineDiffType` (src/lib/diff.ts): classify the
per-profile boolean values of one key. -/
def determineDiffType (values : JMap Bool) : DiffType :=
  let boolValues := values.map Prod.snd
  let uniqueValues := jsSetOf boolValues
  if uniqueValues.length = 1 then .unchanged
  else
    let trueCount := (boolValues.filter (fun v => v == true)).length
    let falseCount := (boolValues.filter (fun v => v == false)).length
    if trueCount = 1 ∧ 0 < falseCount then .added
    else if falseCount = 1 ∧ 0 < trueCount then .removed
    else .changed

/-- `DiffEngine.determineDiffTypeForStrings` (src/lib/diff.ts). -/
def determineDiffTypeForStrings (values : JMap String) : DiffType :=
  let uniqueValues := jsSetOf (values.map Prod.snd)
  if uniqueValues.length = 1 then .unchanged else .changed

/-- The six object sub-permissions iterated by `compareObjectPermissions`,
each with its accessor. -/
def objectPermTypes : List (String × (ObjectPermission → Bool)) :=
  [("read", ObjectPermission.read), ("create", ObjectPermission.create),
   ("edit", ObjectPermission.edit), ("delete", ObjectPermission.delete),
   ("viewAll", ObjectPermission.viewAll), ("modifyAll", ObjectPermission.modifyAll)]

/-- The two field sub-permissions iterated by `compareFieldPermissions`. -/
def fieldPermTypes : List (String × (FieldPermission → Bool)) :=
  [("read", FieldPermission.read), ("edit", FieldPermission.edit)]

/-- The union (insertion-ordered, deduplicated) of the object names of all
profiles, as built by `compareObjectPermissions`. -/
def allObjectNames (profiles : List NormalizedProfile) : List String :=
  profiles.foldl (fun acc p => p.objects.foldl (fun a kv => insertUniq a kv.1) acc) []

/-- The per-profile boolean values of one object sub-permission:
`p.objects[objectName]?.permissions?.[permType] ?? false`. -/
def objectPermValues (profiles : List NormalizedProfile) (objectName : String)
    (get : ObjectPermission → Bool) : JMap Bool :=
  profiles.foldl
    (fun v p =>
      aset v p.profileId (((alookup p.objects objectName).map
        (fun oa => get oa.permissions)).getD false)) []

/-- One candidate `DiffItem` per (object, sub-permission) pair, in the
iteration order of `compareObjectPermissions`. -/
def objectPermissionItems (profiles : List NormalizedProfile) : List DiffItem :=
  (allObjectNames profiles).flatMap (fun objectName =>
    objectPermTypes.map (fun pt =>
      let values := objectPermValues profiles objectName pt.2
      { path := "objects." ++ objectName ++ ".permissions." ++ pt.1
        category := "objectPermission"
        objectName := some objectName
        fieldName := none
        permissionName := some pt.1
        values := values.map (fun kv => (kv.1, DiffValue.b kv.2))
        diffType := determineDiffType values }))

/-- The map object name ↦ union of its field names across all profiles, as
built by `compareFieldPermissions` (insertion-ordered). -/
def allFields (profiles : List NormalizedProfile) : JMap (List String) :=
  profiles.foldl
    (fun m p =>
      p.objects.foldl
        (fun m2 kv =>
          let cur := (alookup m2 kv.1).getD []
          aset m2 kv.1 (kv.2.fields.foldl (fun l fkv => insertUniq l fkv.1) cur)) m) []

/-- The per-profile boolean values of one field sub-permission:
`p.objects[objectName]?.fields?.[fieldName]?.[permType] ?? false`. -/
def fieldPermValues (profiles : List NormalizedProfile) (objectName fieldName : String)
    (get : FieldPermission → Bool) : JMap Bool :=
  profiles.foldl
    (fun v p =>
      aset v p.profileId ((((alookup p.objects objectName).bind
        (fun oa => alookup oa.fields fieldName)).map get).getD false)) []

/-- One candidate `DiffItem` per (object, field, sub-permission) triple, in
the iteration order of `compareFieldPermissions`. -/
def fieldPermissionItems (profiles : List NormalizedProfile) : List DiffItem :=
  (allFields profiles).flatMap (fun ofn =>
    ofn.2.flatMap (fun fieldName =>
      fieldPermTypes.map (fun pt =>
        let values := fieldPermValues profiles ofn.1 fieldName pt.2
        { path := "objects." ++ ofn.1 ++ ".fields." ++ fieldName ++ "." ++ pt.1
          category := "fieldPermission"
          objectName := some ofn.1
          fieldName := some fieldName
          permissionName := some pt.1
          values := values.map (fun kv => (kv.1, DiffValue.b kv.2))
          diffType := determineDiffType values })))

/-- One candidate `DiffItem` per system-permission name, in the iteration
order of `compareSystemPermissions`. -/
def systemPermissionItems (profiles : List NormalizedProfile) : List DiffItem :=
  let allPermissions :=
    profiles.foldl (fun acc p => p.systemPermissions.foldl (fun a kv => insertUniq a kv.1) acc) []
  allPermissions.map (fun permName =>
    let values : JMap Bool :=
      profiles.foldl
        (fun v p => aset v p.profileId ((alookup p.systemPermissions permName).getD false)) []
    { path := "systemPermissions." ++ permName
      category := "systemPermission"
      objectName := none
      fieldName := none
      permissionName := some permName
      values := values.map (fun kv => (kv.1, DiffValue.b kv.2))
      diffType := determineDiffType values })

/-- One candidate `DiffItem` per list item, in the iteration order of
`compareArrayProperty` (`propertyName` is the property's name as used in the
emitted `path`; `select` reads the property). -/
def arrayPropertyItems (profiles : List NormalizedProfile) (propertyName : String)
    (select : NormalizedProfile → List String) (category : String) : List DiffItem :=
  let allItems := profiles.foldl (fun acc p => (select p).foldl insertUniq acc) []
  allItems.map (fun item =>
    let values : JMap Bool :=
      profiles.foldl (fun v p => aset v p.profileId ((select p).contains item)) []
    { path := propertyName ++ "." ++ item
      category := category
      objectName := none
      fieldName := none
      permissionName := some item
      values := values.map (fun kv => (kv.1, DiffValue.b kv.2))
      diffType := determineDiffType values })

/-- One candidate `DiffItem` per tab name, in the iteration order of
`compareTabVisibilities` (`?? 'Hidden'` default, string diff rule). -/
def tabVisibilityItems (profiles : List NormalizedProfile) : List DiffItem :=
  let allTabs :=
    profiles.foldl (fun acc p => p.tabVisibilities.foldl (fun a kv => insertUniq a kv.1) acc) []
  allTabs.map (fun tabName =>
    let values : JMap String :=
      profiles.foldl
        (fun v p => aset v p.profileId ((alookup p.tabVisibilities tabName).getD "Hidden")) []
    { path := "tabVisibilities." ++ tabName
      category := "tabVisibility"
      objectName := none
      fieldName := none
      permissionName := some tabName
      values := values.map (fun kv => (kv.1, DiffValue.s kv.2))
      diffType := determineDiffTypeForStrings values })

/-- Two candidate `DiffItem`s (visible, default) per app name, in the
iteration order of `compareAppVisibilities`. -/
def appVisibilityItems (profiles : List NormalizedProfile) : List DiffItem :=
  let allApps :=
    profiles.foldl (fun acc p => p.appVisibilities.foldl (fun a kv => insertUniq a kv.1) acc) []
  allApps.flatMap (fun appName =>
    let visibleValues : JMap Bool :=
      profiles.foldl
        (fun v p =>
          aset v p.profileId (((alookup p.appVisibilities appName).map
            (fun av => av.visible)).getD false)) []
    let defaultValues : JMap Bool :=
      profiles.foldl
        (fun v p =>
          aset v p.profileId (((alookup p.appVisibilities appName).map
            (fun av => av.default)).getD false)) []
    [{ path := "appVisibilities." ++ appName ++ ".visible"
       category := "appVisibility"
       objectName := none
       fieldName := none
       permissionName := some (appName ++ " (Visible)")
       values := visibleValues.map (fun kv => (kv.1, DiffValue.b kv.2))
       diffType := determineDiffType visibleValues },
     { path := "appVisibilities." ++ appName ++ ".default"
       category := "appVisibility"
       objectName := none
       fieldName := none
       permissionName := some (appName ++ " (Default)")
       values := defaultValues.map (fun kv => (kv.1, DiffValue.b kv.2))
       diffType := determineDiffType defaultValues }])

/-- A candidate item is pushed onto `differences` iff its diff type is not
`unchanged` or `includeUnchanged` is set. -/
def emitted (includeUnchanged : Bool) (items : List DiffItem) : List DiffItem :=
  items.filter (fun d => !d.diffType.isUnchanged || includeUnchanged)

/-- Each pass's summary counter counts its non-`unchanged` candidate keys
(the source increments once per non-`unchanged` emission). -/
def countChanged (items : List DiffItem) : Nat :=
  items.countP (fun d => !d.diffType.isUnchanged)

/-- `DiffEngine.compare` (src/lib/diff.ts): the nine passes in source order;
`timestamp` stands for `new Date().toISOString()`. -/
def compare (profiles : List NormalizedProfile) (includeUnchanged : Bool)
    (timestamp : String) : ComparisonResult :=
  let i1 := objectPermissionItems profiles
  let i2 := fieldPermissionItems profiles
  let i3 := systemPermissionItems profiles
  let i4 := arrayPropertyItems profiles "apexClasses" NormalizedProfile.apexClasses "apexClass"
  let i5 := arrayPropertyItems profiles "visualforcePages" NormalizedProfile.visualforcePages "visualforcePage"
  let i6 := arrayPropertyItems profiles "lightningPages" NormalizedProfile.lightningPages "lightningPage"
  let i7 := arrayPropertyItems profiles "recordTypes" NormalizedProfile.recordTypes "recordType"
  let i8 := tabVisibilityItems profiles
  let i9 := appVisibilityItems profiles
  let differences :=
    emitted includeUnchanged i1 ++ emitted includeUnchanged i2 ++ emitted includeUnchanged i3 ++
    emitted includeUnchanged i4 ++ emitted includeUnchanged i5 ++ emitted includeUnchanged i6 ++
    emitted includeUnchanged i7 ++ emitted includeUnchanged i8 ++ emitted includeUnchanged i9
  { profiles := profiles.map (fun p => (p.profileId, p.profileName))
    timestamp := timestamp
    totalDifferences := (differences.filter (fun d => !d.diffType.isUnchanged)).length
    differences := differences
    summary :=
      { objectPermissions := countChanged i1
        fieldPermissions := countChanged i2
        systemPermissions := countChanged i3
        apexClasses := countChanged i4
        visualforcePages := countChanged i5
        lightningPages := countChanged i6
        recordTypes := countChanged i7
        tabVisibilities := countChanged i8
        appVisibilities := countChanged i9 } }

end DiffLib

namespace DiffSrv

/-- `DiffEngine.determineDiffType` of the backend `diff.service` file
(src/unnamed/part_002): same classification, written from that file's
for-of loops. -/
def determineDiffType (values : JMap Bool) : DiffType :=
  let boolValues := values.map Prod.snd
  let uniqueValues := jsSetOf boolValues
  if uniqueValues.length = 1 then .unchanged
  else
    let trueCount := (boolValues.filter (fun v => v == true)).length
    let falseCount := (boolValues.filter (fun v => v == false)).length
    if trueCount = 1 ∧ 0 < falseCount then .added
    else if falseCount = 1 ∧ 0 < trueCount then .removed
    else .changed

/-- `DiffEngine.determineDiffTypeForStrings` of the backend service file. -/
def determineDiffTypeForStrings (values : JMap String) : DiffType :=
  let strValues := values.map Prod.snd
  let uniqueValues := jsSetOf strValues
  if uniqueValues.length = 1 then .unchanged else .changed

/-- The six object sub-permissions iterated by the backend
`compareObjectPermissions`. -/
def objectPermTypes : List (String × (ObjectPermission → Bool)) :=
  [("read", ObjectPermission.read), ("create", ObjectPermission.create),
   ("edit", ObjectPermission.edit), ("delete", ObjectPermission.delete),
   ("viewAll", ObjectPermission.viewAll), ("modifyAll", ObjectPermission.modifyAll)]

/-- The two field sub-permissions iterated by the backend
`compareFieldPermissions`. -/
def fieldPermTypes : List (String × (FieldPermission → Bool)) :=
  [("read", FieldPermission.read), ("edit", FieldPermission.edit)]

/-- Backend `compareObjectPermissions`: union of object names, then one
candidate item per (object, sub-permission). -/
def objectPermissionItems (profiles : List NormalizedProfile) : List DiffItem :=
  let allObjectNames :=
    profiles.foldl (fun acc p => p.objects.foldl (fun a kv => insertUniq a kv.1) acc) []
  allObjectNames.flatMap (fun objectName =>
    objectPermTypes.map (fun pt =>
      let values : JMap Bool :=
        profiles.foldl
          (fun v p =>
            aset v p.profileId (((alookup p.objects objectName).map
              (fun objAccess => pt.2 objAccess.permissions)).getD false)) []
      { path := "objects." ++ objectName ++ ".permissions." ++ pt.1
        category := "objectPermission"
        objectName := some objectName
        fieldName := none
        permissionName := some pt.1
        values := values.map (fun kv => (kv.1, DiffValue.b kv.2))
        diffType := determineDiffType values }))

/-- Backend `compareFieldPermissions`: union of (object, field) pairs, then
one candidate item per (object, field, sub-permission). -/
def fieldPermissionItems (profiles : List NormalizedProfile) : List DiffItem :=
  let allFields : JMap (List String) :=
    profiles.foldl
      (fun m p =>
        p.objects.foldl
          (fun m2 kv =>
            let cur := (alookup m2 kv.1).getD []
            aset m2 kv.1 (kv.2.fields.foldl (fun l fkv => insertUniq l fkv.1) cur)) m) []
  allFields.flatMap (fun ofn =>
    ofn.2.flatMap (fun fieldName =>
      fieldPermTypes.map (fun pt =>
        let values : JMap Bool :=
          profiles.foldl
            (fun v p =>
              aset v p.profileId ((((alookup p.objects ofn.1).bind
                (fun objAccess => alookup objAccess.fields fieldName)).map pt.2).getD false)) []
        { path := "objects." ++ ofn.1 ++ ".fields." ++ fieldName ++ "." ++ pt.1
          category := "fieldPermission"
          objectName := some ofn.1
          fieldName := some fieldName
          permissionName := some pt.1
          values := values.map (fun kv => (kv.1, DiffValue.b kv.2))
          diffType := determineDiffType values })))

/-- Backend `compareSystemPermissions`. -/
def systemPermissionItems (profiles : List NormalizedProfile) : List DiffItem :=
  let allPermissions :=
    profiles.foldl (fun acc p => p.systemPermissions.foldl (fun a kv => insertUniq a kv.1) acc) []
  allPermissions.map (fun permName =>
    let values : JMap Bool :=
      profiles.foldl
        (fun v p => aset v p.profileId ((alookup p.systemPermissions permName).getD false)) []
    { path := "systemPermissions." ++ permName
      category := "systemPermission"
      objectName := none
      fieldName := none
      permissionName := some permName
      values := values.map (fun kv => (kv.1, DiffValue.b kv.2))
      diffType := determineDiffType values })

/-- Backend `compareArrayProperty`. -/
def arrayPropertyItems (profiles : List NormalizedProfile) (propertyName : String)
    (select : NormalizedProfile → List String) (category : String) : List DiffItem :=
  let allItems := profiles.foldl (fun acc p => (select p).foldl insertUniq acc) []
  allItems.map (fun item =>
    let values : JMap Bool :=
      profiles.foldl (fun v p => aset v p.profileId ((select p).contains item)) []
    { path := propertyName ++ "." ++ item
      category := category
      objectName := none
      fieldName := none
      permissionName := some item
      values := values.map (fun kv => (kv.1, DiffValue.b kv.2))
      diffType := determineDiffType values })

/-- Backend `compareTabVisibilities`. -/
def tabVisibilityItems (profiles : List NormalizedProfile) : List DiffItem :=
  let allTabs :=
    profiles.foldl (fun acc p => p.tabVisibilities.foldl (fun a kv => insertUniq a kv.1) acc) []
  allTabs.map (fun tabName =>
    let values : JMap String :=
      profiles.foldl
        (fun v p => aset v p.profileId ((alookup p.tabVisibilities tabName).getD "Hidden")) []
    { path := "tabVisibilities." ++ tabName
      category := "tabVisibility"
      objectName := none
      fieldName := none
      permissionName := some tabName
      values := values.map (fun kv => (kv.1, DiffValue.s kv.2))
      diffType := determineDiffTypeForStrings values })

/-- Backend `compareAppVisibilities`. -/
def appVisibilityItems (profiles : List NormalizedProfile) : List DiffItem :=
  let allApps :=
    profiles.foldl (fun acc p => p.appVisibilities.foldl (fun a kv => insertUniq a kv.1) acc) []
  allApps.flatMap (fun appName =>
    let visibleValues : JMap Bool :=
      profiles.foldl
        (fun v p =>
          aset v p.profileId (((alookup p.appVisibilities appName).map
            (fun appVis => appVis.visible)).getD false)) []
    let defaultValues : JMap Bool :=
      profiles.foldl
        (fun v p =>
          aset v p.profileId (((alookup p.appVisibilities appName).map
            (fun appVis => appVis.default)).getD false)) []
    [{ path := "appVisibilities." ++ appName ++ ".visible"
       category := "appVisibility"
       objectName := none
       fieldName := none
       permissionName := some (appName ++ " (Visible)")
       values := visibleValues.map (fun kv => (kv.1, DiffValue.b kv.2))
       diffType := determineDiffType visibleValues },
     { path := "appVisibilities." ++ appName ++ ".default"
       category := "appVisibility"
       objectName := none
       fieldName := none
       permissionName := some (appName ++ " (Default)")
       values := defaultValues.map (fun kv => (kv.1, DiffValue.b kv.2))
       diffType := determineDiffType defaultValues }])

/-- Conditional push onto `differences` (backend version). -/
def emitted (includeUnchanged : Bool) (items : List DiffItem) : List DiffItem :=
  items.filter (fun d => !d.diffType.isUnchanged || includeUnchanged)

/-- Per-pass summary counting (backend version). -/
def countChanged (items : List DiffItem) : Nat :=
  items.countP (fun d => !d.diffType.isUnchanged)

/-- `DiffEngine.compare` of the backend service file: the same nine passes
in the same order. -/
def compare (profiles : List NormalizedProfile) (includeUnchanged : Bool)
    (timestamp : String) : ComparisonResult :=
  let i1 := objectPermissionItems profiles
  let i2 := fieldPermissionItems profiles
  let i3 := systemPermissionItems profiles
  let i4 := arrayPropertyItems profiles "apexClasses" NormalizedProfile.apexClasses "apexClass"
  let i5 := arrayPropertyItems profiles "visualforcePages" NormalizedProfile.visualforcePages "visualforcePage"
  let i6 := arrayPropertyItems profiles "lightningPages" NormalizedProfile.lightningPages "lightningPage"
  let i7 := arrayPropertyItems profiles "recordTypes" NormalizedProfile.recordTypes "recordType"
  let i8 := tabVisibilityItems profiles
  let i9 := appVisibilityItems profiles
  let differences :=
    emitted includeUnchanged i1 ++ emitted includeUnchanged i2 ++ emitted includeUnchanged i3 ++
    emitted includeUnchanged i4 ++ emitted includeUnchanged i5 ++ emitted includeUnchanged i6 ++
    emitted includeUnchanged i7 ++ emitted includeUnchanged i8 ++ emitted includeUnchanged i9
  { profiles := profiles.map (fun p => (p.profileId, p.profileName))
    timestamp := timestamp
    totalDifferences := (differences.filter (fun d => !d.diffType.isUnchanged)).length
    differences := differences
    summary :=
      { objectPermissions := countChanged i1
        fieldPermissions := countChanged i2
        systemPermissions := countChanged i3
        apexClasses := countChanged i4
        visualforcePages := countChanged i5
        lightningPages := countChanged i6
        recordTypes := countChanged i7
        tabVisibilities := countChanged i8
        appVisibilities := countChanged i9 } }

end DiffSrv

/-! ### Raw Salesforce record shapes (`src/lib/types.ts`) -/

/-- `SalesforceProfile`: one profile-identity row. -/
structure SalesforceProfile where
  Id : String
  Name : String
  UserLicenseId : String
deriving DecidableEq

/-- `SalesforceObjectPermission`: one object-permission row. -/
structure SalesforceObjectPermission where
  Id : String
  ParentId : String
  SobjectType : String
  PermissionsCreate : Bool
  PermissionsRead : Bool
  PermissionsEdit : Bool
  PermissionsDelete : Bool
  PermissionsViewAllRecords : Bool
  PermissionsModifyAllRecords : Bool
deriving DecidableEq

/-- `SalesforceFieldPermission`: one field-permission row. -/
structure SalesforceFieldPermission where
  Id : String
  ParentId : String
  SobjectType : String
  Field : String
  PermissionsRead : Bool
  PermissionsEdit : Bool
deriving DecidableEq

/-- `SalesforcePermissionSet`: one container row.  The open-ended
`Permissions*` boolean columns (`[key: string]: any`) are modelled as
`permissionsFields`, keyed by raw column name; the fixed non-boolean
columns (`Id`, `Name`) and the boolean `IsOwnedByProfile` cannot pass the
`startsWith('Permissions')`/`typeof boolean` filter and are kept apart. -/
structure SalesforcePermissionSet where
  Id : String
  Name : String
  ProfileId : Option String
  IsOwnedByProfile : Bool
  permissionsFields : JMap Bool
deriving DecidableEq

/-- `SalesforceSetupEntityAccess`: one generic access-grant row. -/
structure SalesforceSetupEntityAccess where
  Id : String
  ParentId : String
  SetupEntityId : String
  SetupEntityType : String
deriving DecidableEq

namespace ProfileNormalizer

/-- `ProfileDataBundle` (src/lib/normalizer.ts): the intermediate
per-profile bundle. -/
structure ProfileDataBundle where
  objectPermissions : List SalesforceObjectPermission
  fieldPermissions : List SalesforceFieldPermission
  systemPermissions : JMap Bool
  apexClasses : List String
  visualforcePages : List String
  lightningPages : List String
  recordTypes : List String
  tabs : List String
  apps : List String
deriving DecidableEq

/-- The freshly initialized bundle of `groupDataByProfile`. -/
def emptyBundle : ProfileDataBundle :=
  { objectPermissions := [], fieldPermissions := [], systemPermissions := []
    apexClasses := [], visualforcePages := [], lightningPages := []
    recordTypes := [], tabs := [], apps := [] }

/-- The `Permissions*` extraction of `groupDataByProfile`: keep the boolean
columns whose name starts with `Permissions`, stripping that prefix
(`key.replace('Permissions', '')` replaces the first occurrence, which the
`startsWith` guard places at position 0, so it drops the 11-character
prefix). -/
def extractSystemPerms (permSet : SalesforcePermissionSet) : JMap Bool :=
  permSet.permissionsFields.foldl
    (fun acc kv =>
      if kv.1.startsWith "Permissions" then aset acc (kv.1.drop 11) kv.2 else acc) []

/-- The bundle initialization loop of `groupDataByProfile`: one fresh
bundle per requested profile id. -/
def initBundles (profileIds : List String) : JMap ProfileDataBundle :=
  profileIds.foldl (fun m id => aset m id emptyBundle) []

/-- `ProfileNormalizer.groupDataByProfile` (src/lib/normalizer.ts): one
bundle per requested profile id, then each record routed to its profile's
bundle through the container→profile map; records whose container or
bundle is unknown, and access grants whose entity name does not resolve,
are dropped. -/
def groupDataByProfile (profileIds : List String) (permSetToProfileMap : JMap String)
    (objectPermissions : List SalesforceObjectPermission)
    (fieldPermissions : List SalesforceFieldPermission)
    (permissionSets : List SalesforcePermissionSet)
    (setupEntityAccess : List SalesforceSetupEntityAccess)
    (apexClassNames apexPageNames recordTypeNames customTabNames customAppNames : JMap String) :
    JMap ProfileDataBundle :=
  let result : JMap ProfileDataBundle := initBundles profileIds
  let result :=
    objectPermissions.foldl
      (fun m objPerm =>
        match alookup permSetToProfileMap objPerm.ParentId with
        | some profileId =>
            match alookup m profileId with
            | some bundle =>
                aset m profileId
                  { bundle with objectPermissions := bundle.objectPermissions ++ [objPerm] }
            | none => m
        | none => m) result
  let result :=
    fieldPermissions.foldl
      (fun m fieldPerm =>
        match alookup permSetToProfileMap fieldPerm.ParentId with
        | some profileId =>
            match alookup m profileId with
            | some bundle =>
                aset m profileId
                  { bundle with fieldPermissions := bundle.fieldPermissions ++ [fieldPerm] }
            | none => m
        | none => m) result
  let result :=
    permissionSets.foldl
      (fun m permSet =>
        match permSet.ProfileId with
        | some profileId =>
            match alookup m profileId with
            | some bundle =>
                aset m profileId { bundle with systemPermissions := extractSystemPerms permSet }
            | none => m
        | none => m) result
  let result :=
    setupEntityAccess.foldl
      (fun m access =>
        match alookup permSetToProfileMap access.ParentId with
        | some profileId =>
            match alookup m profileId with
            | some bundle =>
                if access.SetupEntityType = "ApexClass" then
                  match alookup apexClassNames access.SetupEntityId with
                  | some name =>
                      aset m profileId { bundle with apexClasses := bundle.apexClasses ++ [name] }
                  | none => m
                else if access.SetupEntityType = "ApexPage" then
                  match alookup apexPageNames access.SetupEntityId with
                  | some name =>
                      aset m profileId
                        { bundle with visualforcePages := bundle.visualforcePages ++ [name] }
                  | none => m
                else if access.SetupEntityType = "RecordType" then
                  match alookup recordTypeNames access.SetupEntityId with
                  | some name =>
                      aset m profileId { bundle with recordTypes := bundle.recordTypes ++ [name] }
                  | none => m
                else if access.SetupEntityType = "TabSet" then
                  match alookup customAppNames access.SetupEntityId with
                  | some name =>
                      aset m profileId { bundle with apps := bundle.apps ++ [name] }
                  | none => m
                else if access.SetupEntityType = "CustomTab" then
                  match alookup customTabNames access.SetupEntityId with
                  | some name =>
                      aset m profileId { bundle with tabs := bundle.tabs ++ [name] }
                  | none => m
                else m
            | none => m
        | none => m) result
  result

/-- The default all-false object permissions synthesized for an object that
has field rows but no object-permission row. -/
def defaultObjectPermission : ObjectPermission :=
  { read := false, create := false, edit := false
    delete := false, viewAll := false, modifyAll := false }

/-- One iteration of the object-permission loop of
`buildNormalizedProfile`: `objects[objPerm.SobjectType] = {permissions: …,
fields: {}}` (a later row for the same object overwrites the earlier). -/
def objStep (m : JMap ObjectAccess) (objPerm : SalesforceObjectPermission) : JMap ObjectAccess :=
  aset m objPerm.SobjectType
    { permissions :=
        { read := objPerm.PermissionsRead
          create := objPerm.PermissionsCreate
          edit := objPerm.PermissionsEdit
          delete := objPerm.PermissionsDelete
          viewAll := objPerm.PermissionsViewAllRecords
          modifyAll := objPerm.PermissionsModifyAllRecords }
      fields := [] }

/-- One iteration of the field-permission loop of `buildNormalizedProfile`:
synthesize the object entry with default all-false permissions when it is
absent, then write the field entry. -/
def fieldStep (m : JMap ObjectAccess) (fieldPerm : SalesforceFieldPermission) :
    JMap ObjectAccess :=
  let objectName := fieldPerm.SobjectType
  let fieldName := fieldNameOf fieldPerm.Field
  let m1 :=
    match alookup m objectName with
    | none => aset m objectName { permissions := defaultObjectPermission, fields := [] }
    | some _ => m
  match alookup m1 objectName with
  | some objAccess =>
      aset m1 objectName
        { objAccess with
            fields := aset objAccess.fields fieldName
              { read := fieldPerm.PermissionsRead, edit := fieldPerm.PermissionsEdit } }
  | none => m1

/-- `ProfileNormalizer.buildNormalizedProfile` (src/lib/normalizer.ts):
seed `objects` from the object-permission rows (last write wins per object
name), overlay the field-permission rows (synthesizing default all-false
permissions when the object is absent), and sort all list-valued fields. -/
def buildNormalizedProfile (profile : SalesforceProfile) (data : ProfileDataBundle) :
    NormalizedProfile :=
  let objects : JMap ObjectAccess := data.objectPermissions.foldl objStep []
  let objects := data.fieldPermissions.foldl fieldStep objects
  let tabVisibilities : JMap String :=
    (jsSort data.tabs).foldl (fun m tab => aset m tab "Visible") []
  let appVisibilities : JMap AppVisibility :=
    (jsSort data.apps).foldl (fun m app => aset m app { visible := true, default := false }) []
  { profileId := profile.Id
    profileName := profile.Name
    objects := objects
    systemPermissions := data.systemPermissions
    apexClasses := jsSort data.apexClasses
    visualforcePages := jsSort data.visualforcePages
    lightningPages := jsSort data.lightningPages
    recordTypes := jsSort data.recordTypes
    tabVisibilities := tabVisibilities
    appVisibilities := appVisibilities
    userPermissions := data.systemPermissions }

/-- The record sets and name catalogs the Source Record Provider returns
for one comparison request.  A failed non-critical fetch corresponds to an
empty list/map (the code's degrade-to-empty behaviour).
`permissionSetRows` are the `(ProfileId, Id)` pairs of the containers with
`IsOwnedByProfile = true`. -/
structure SourceData where
  allProfiles : List SalesforceProfile
  permissionSetRows : List (String × String)
  objectPermissions : List SalesforceObjectPermission
  fieldPermissions : List SalesforceFieldPermission
  permissionSets : List SalesforcePermissionSet
  setupEntityAccess : List SalesforceSetupEntityAccess
  apexClassNames : JMap String
  apexPageNames : JMap String
  recordTypeNames : JMap String
  customTabNames : JMap String
  customAppNames : JMap String
deriving DecidableEq

/-- `SalesforceService.getProfilePermissionSetIds`: the owned-container
rows restricted to the requested profiles, as a profile→container map
(`new Map(rows)`: a later row for the same profile overwrites). -/
def getProfilePermissionSetIds (src : SourceData) (profileIds : List String) : JMap String :=
  (src.permissionSetRows.filter (fun r => profileIds.contains r.1)).foldl
    (fun m r => aset m r.1 r.2) []

/-- The `this.profiles` map of the normalizer: every fetched profile row
keyed by its id (`Map.set`, last write wins). -/
def buildProfilesMap (allProfiles : List SalesforceProfile) : JMap SalesforceProfile :=
  allProfiles.foldl (fun m p => aset m p.Id p) []

/-- The final loop of `normalizeProfiles`: one `NormalizedProfile` pushed
per requested id whose profile identity and bundle both resolve. -/
def assembleProfiles (profilesMap : JMap SalesforceProfile)
    (profileData : JMap ProfileDataBundle) (profileIds : List String) :
    List NormalizedProfile :=
  profileIds.foldl
    (fun acc profileId =>
      match alookup profilesMap profileId, alookup profileData profileId with
      | some profile, some data => acc ++ [buildNormalizedProfile profile data]
      | _, _ => acc) []

/-- `ProfileNormalizer.normalizeProfiles` (src/lib/normalizer.ts), with the
asynchronous fetches replaced by reads of `src`: build the profile map and
the container↔profile maps, restrict every record set to the fetched
containers, group per profile, and build one `NormalizedProfile` for every
requested id whose profile identity and bundle both resolve. -/
def normalizeProfiles (profileIds : List String) (src : SourceData) : List NormalizedProfile :=
  let profilesMap : JMap SalesforceProfile := buildProfilesMap src.allProfiles
  let profileToPermSetMap := getProfilePermissionSetIds src profileIds
  let permissionSetIds := profileToPermSetMap.map Prod.snd
  let permSetToProfileMap :=
    profileToPermSetMap.foldl (fun m kv => aset m kv.2 kv.1) []
  let objectPermissions :=
    src.objectPermissions.filter (fun op => permissionSetIds.contains op.ParentId)
  let fieldPermissions :=
    src.fieldPermissions.filter (fun fp => permissionSetIds.contains fp.ParentId)
  let permissionSets :=
    src.permissionSets.filter (fun ps => permissionSetIds.contains ps.Id)
  let setupEntityAccess :=
    src.setupEntityAccess.filter (fun a => permissionSetIds.contains a.ParentId)
  let profileData :=
    groupDataByProfile profileIds permSetToProfileMap objectPermissions fieldPermissions
      permissionSets setupEntityAccess src.apexClassNames src.apexPageNames
      src.recordTypeNames src.customTabNames src.customAppNames
  assembleProfiles profilesMap profileData profileIds

end ProfileNormalizer

/-! ### Basic lemmas about the JS-container models -/

theorem alookup_aset {V : Type} (m : JMap V) (k j : String) (v : V) :
    alookup (aset m k v) j = if k = j then some v else alookup m j := by
  induction m with
  | nil =>
      by_cases h : k = j <;> simp [aset, alookup, h]
  | cons kv rest ih =>
      obtain ⟨k', v'⟩ := kv
      by_cases hk : k' = k
      · subst hk
        by_cases hj : k' = j <;> simp [aset, alookup, hj]
      · by_cases hj : k' = j
        · subst hj
          have : ¬ k = k' := fun h => hk h.symm
          simp [aset, alookup, hk, this]
        · simp [aset, alookup, hk, hj, ih]

theorem isSome_alookup_aset {V : Type} {m : JMap V} {j : String} (k : String) (v : V)
    (h : (alookup m j).isSome) : (alookup (aset m k v) j).isSome := by
  rw [alookup_aset]
  by_cases hk : k = j <;> simp [hk, h]

theorem mem_insertUniq {α : Type} [DecidableEq α] {l : List α} {x y : α} :
    y ∈ insertUniq l x ↔ y ∈ l ∨ y = x := by
  unfold insertUniq
  by_cases h : x ∈ l
  · simp only [if_pos h]
    exact ⟨Or.inl, fun h' => h'.elim id (fun e => e ▸ h)⟩
  · simp [if_neg h]

theorem mem_foldl_insertUniq {α : Type} [DecidableEq α] (l : List α) :
    ∀ (acc : List α) (y : α), y ∈ l.foldl insertUniq acc ↔ y ∈ acc ∨ y ∈ l := by
  induction l with
  | nil => simp
  | cons x xs ih =>
      intro acc y
      simp only [List.foldl_cons, ih, mem_insertUniq, List.mem_cons]
      tauto

theorem foldl_insertUniq_of_mem {α : Type} [DecidableEq α] (l : List α) :
    ∀ (acc : List α), (∀ a ∈ l, a ∈ acc) → l.foldl insertUniq acc = acc := by
  induction l with
  | nil => intro acc _; rfl
  | cons x xs ih =>
      intro acc h
      have hx : x ∈ acc := h x (List.mem_cons_self x xs)
      simp only [List.foldl_cons, insertUniq, if_pos hx]
      exact ih acc (fun a ha => h a (List.mem_cons_of_mem x ha))

theorem jsSetOf_of_all_eq {α : Type} [DecidableEq α] {l : List α} {x : α}
    (hne : l ≠ []) (h : ∀ a ∈ l, a = x) : jsSetOf l = [x] := by
  cases l with
  | nil => exact absurd rfl hne
  | cons a as =>
      have hax : a = x := h a (List.mem_cons_self a as)
      subst hax
      unfold jsSetOf
      simp only [List.foldl_cons]
      have h0 : insertUniq [] a = [a] := by simp [insertUniq]
      rw [h0]
      exact foldl_insertUniq_of_mem as [a]
        (fun b hb => by simp [h b (List.mem_cons_of_mem a hb)])

theorem nodup_insertUniq {α : Type} [DecidableEq α] {l : List α} (x : α)
    (h : l.Nodup) : (insertUniq l x).Nodup := by
  unfold insertUniq
  by_cases hx : x ∈ l
  · simpa [if_pos hx] using h
  · simp only [if_neg hx]
    simpa [List.nodup_append] using ⟨h, hx⟩

theorem nodup_foldl_insertUniq {α : Type} [DecidableEq α] (l : List α) :
    ∀ (acc : List α), acc.Nodup → (l.foldl insertUniq acc).Nodup := by
  induction l with
  | nil => intro acc h; exact h
  | cons x xs ih =>
      intro acc h
      exact ih (insertUniq acc x) (nodup_insertUniq x h)

theorem jsSetOf_length_eq_one {α : Type} [DecidableEq α] {l : List α} (hne : l ≠ []) :
    (jsSetOf l).length = 1 ↔ ∀ a ∈ l, ∀ b ∈ l, a = b := by
  constructor
  · intro h1 a ha b hb
    obtain ⟨x, hx⟩ := List.length_eq_one.mp h1
    have hma : a ∈ jsSetOf l := by
      unfold jsSetOf; rw [mem_foldl_insertUniq]; exact Or.inr ha
    have hmb : b ∈ jsSetOf l := by
      unfold jsSetOf; rw [mem_foldl_insertUniq]; exact Or.inr hb
    rw [hx] at hma hmb
    simp only [List.mem_singleton] at hma hmb
    rw [hma, hmb]
  · intro hall
    obtain ⟨a, ha⟩ := List.exists_mem_of_ne_nil l hne
    rw [jsSetOf_of_all_eq hne (fun b hb => hall b hb a ha)]
    rfl

theorem charListLe_iff_not_lex (x y : List Char) :
    charListLe x y = true ↔ ¬ List.Lex (· < ·) y x := by
  induction x generalizing y with
  | nil =>
      cases y with
      | nil => simp [charListLe]
      | cons b bs => simp [charListLe]
  | cons a as ih =>
      cases y with
      | nil =>
          simp only [charListLe, Bool.false_eq_true, false_iff, not_not]
          exact List.Lex.nil
      | cons b bs =>
          by_cases hab : a < b
          · have hba : ¬ b < a := fun h => absurd hab (asymm h)
            simp only [charListLe, if_pos hab, true_iff]
            intro h
            cases h with
            | cons _ => exact absurd rfl (ne_of_lt hab).symm
            | rel h' => exact hba h'
          · by_cases hba : b < a
            · simp only [charListLe, if_neg hab, if_pos hba, Bool.false_eq_true, false_iff,
                not_not]
              exact List.Lex.rel hba
            · have heq : a = b := le_antisymm (not_lt.mp hba) (not_lt.mp hab)
              subst heq
              simp only [charListLe, if_neg hab, if_neg hba, ih]
              constructor
              · intro h h'
                cases h' with
                | cons h₃ => exact h h₃
                | rel h'' => exact hba h''
              · intro h h'
                exact h (List.Lex.cons h')

/-- The sort comparator agrees with the standard string order. -/
theorem charListLe_iff_le (a b : String) : charListLe a.data b.data = true ↔ a ≤ b := by
  rw [charListLe_iff_not_lex]
  have h1 : (a ≤ b) ↔ ¬ b < a := Iff.rfl
  rw [h1, String.lt_iff_toList_lt]
  rfl

theorem sorted_jsSort (l : List String) : List.Sorted (· ≤ ·) (jsSort l) := by
  haveI : IsTotal String (fun a b => charListLe a.data b.data = true) :=
    ⟨fun a b => by
      rw [charListLe_iff_le, charListLe_iff_le]
      exact le_total a b⟩
  haveI : IsTrans String (fun a b => charListLe a.data b.data = true) :=
    ⟨fun a b c hab hbc => by
      rw [charListLe_iff_le] at hab hbc ⊢
      exact le_trans hab hbc⟩
  exact (List.sorted_insertionSort _ l).imp (fun h => (charListLe_iff_le _ _).mp h)

theorem perm_jsSort (l : List String) : List.Perm (jsSort l) l :=
  List.perm_insertionSort _ l

theorem nodup_jsSort {l : List String} (h : l.Nodup) : (jsSort l).Nodup :=
  (perm_jsSort l).nodup_iff.mpr h

theorem sorted_lt_jsSort {l : List String} (h : l.Nodup) :
    List.Sorted (· < ·) (jsSort l) :=
  List.Sorted.lt_of_le (sorted_jsSort l) (nodup_jsSort h)

/-- Fold preservation: a predicate preserved by each step is preserved by
the whole fold. -/
theorem foldl_preserve {γ β : Type} {P : γ → Prop} {f : γ → β → γ}
    (hstep : ∀ m b, P m → P (f m b)) :
    ∀ (l : List β) (m : γ), P m → P (l.foldl f m) := by
  intro l
  induction l with
  | nil => intro m h; exact h
  | cons b bs ih => intro m h; exact ih (f m b) (hstep m b h)

/-! ### C1: the boolean diff-type rule -/

/-- C1: for every boolean-valued key evaluated by `DiffEngine.compare`
(the per-profile value record is non-empty, since keys are drawn from the
profiles themselves), `determineDiffType` returns `unchanged` when all
values are identical, `added` when exactly one value is true and at least
one is false, `removed` when exactly one value is false and at least one is
true, and `changed` for any other split. -/
theorem C1_diff_type_rule (values : JMap Bool) (hne : values ≠ []) :
    DiffLib.determineDiffType values =
      if ∀ a ∈ values.map Prod.snd, ∀ b ∈ values.map Prod.snd, a = b then
        DiffType.unchanged
      else if (values.map Prod.snd).count true = 1 ∧ 0 < (values.map Prod.snd).count false then
        DiffType.added
      else if (values.map Prod.snd).count false = 1 ∧ 0 < (values.map Prod.snd).count true then
        DiffType.removed
      else DiffType.changed := by
  have hvs : values.map Prod.snd ≠ [] := by
    simpa using hne
  have htc : ((values.map Prod.snd).filter (fun v => v == true)).length
      = (values.map Prod.snd).count true := by
    rw [List.count_eq_countP, List.countP_eq_length_filter]
  have hfc : ((values.map Prod.snd).filter (fun v => v == false)).length
      = (values.map Prod.snd).count false := by
    rw [List.count_eq_countP, List.countP_eq_length_filter]
  unfold DiffLib.determineDiffType
  by_cases hall : ∀ a ∈ values.map Prod.snd, ∀ b ∈ values.map Prod.snd, a = b
  · rw [if_pos ((jsSetOf_length_eq_one hvs).mpr hall), if_pos hall]
  · rw [if_neg (fun h => hall ((jsSetOf_length_eq_one hvs).mp h)), if_neg hall, htc, hfc]

/-- Witness for C1 at the concrete record `{P1: true, P2: false}`. -/
theorem C1_diff_type_rule_witness :
    (([("P1", true), ("P2", false)] : JMap Bool) ≠ []) ∧
    DiffLib.determineDiffType [("P1", true), ("P2", false)] =
      if ∀ a ∈ ([("P1", true), ("P2", false)] : JMap Bool).map Prod.snd,
          ∀ b ∈ ([("P1", true), ("P2", false)] : JMap Bool).map Prod.snd, a = b then
        DiffType.unchanged
      else if (([("P1", true), ("P2", false)] : JMap Bool).map Prod.snd).count true = 1 ∧
          0 < (([("P1", true), ("P2", false)] : JMap Bool).map Prod.snd).count false then
        DiffType.added
      else if (([("P1", true), ("P2", false)] : JMap Bool).map Prod.snd).count false = 1 ∧
          0 < (([("P1", true), ("P2", false)] : JMap Bool).map Prod.snd).count true then
        DiffType.removed
      else DiffType.changed :=
  ⟨by simp, C1_diff_type_rule [("P1", true), ("P2", false)] (by simp)⟩

/-! ### C2, C3: the concrete scenarios of the spec -/

/-- An `ObjectAccess` carrying only the given read/delete flags (all other
sub-permissions false, no fields). -/
def accessRD (read del : Bool) : ObjectAccess :=
  { permissions :=
      { read := read, create := false, edit := false
        delete := del, viewAll := false, modifyAll := false }
    fields := [] }

/-- A `NormalizedProfile` with only an `objects` map. -/
def profileWithObjects (id name : String) (objs : JMap ObjectAccess) : NormalizedProfile :=
  { profileId := id, profileName := name, objects := objs
    systemPermissions := [], apexClasses := [], visualforcePages := []
    lightningPages := [], recordTypes := [], tabVisibilities := []
    appVisibilities := [], userPermissions := [] }

/-- Scenario B, profile 1: `Account.read = true`. -/
def c2P1 : NormalizedProfile :=
  profileWithObjects "P1" "Admin" [("Account", accessRD true false)]

/-- Scenario B, profile 2: `Account.read = true`. -/
def c2P2 : NormalizedProfile :=
  profileWithObjects "P2" "Sales" [("Account", accessRD true false)]

/-- Scenario B, profile 3: `Account.read = false`. -/
def c2P3 : NormalizedProfile :=
  profileWithObjects "P3" "Support" [("Account", accessRD false false)]

/-- C2 counterexample: with `Account.read = true, true, false` over three
profiles, the emitted item for `objects.Account.permissions.read` has diff
type `removed` (exactly one `false`, the second branch of
`determineDiffType`), not `changed` as claimed. -/
theorem C2_counterexample :
    ((DiffLib.compare [c2P1, c2P2, c2P3] false "2024-01-01T00:00:00.000Z").differences.map
        (fun d => (d.path, d.diffType)))
      = [("objects.Account.permissions.read", DiffType.removed)] ∧
    DiffType.removed ≠ DiffType.changed := by
  constructor
  · decide
  · decide

/-- C2 amended: for three profiles with `Account.read = true, true, false`,
`compare` emits exactly one `DiffItem`, at path
`objects.Account.permissions.read`, with diff type `removed` and values
`{P1: true, P2: true, P3: false}`. -/
theorem C2_three_way_removed :
    (DiffLib.compare [c2P1, c2P2, c2P3] false "2024-01-01T00:00:00.000Z").differences =
      [{ path := "objects.Account.permissions.read"
         category := "objectPermission"
         objectName := some "Account"
         fieldName := none
         permissionName := some "read"
         values := [("P1", DiffValue.b true), ("P2", DiffValue.b true), ("P3", DiffValue.b false)]
         diffType := DiffType.removed }] := by
  decide

/-- Scenario A, profile 1: `Account.delete = false`. -/
def c3P1 : NormalizedProfile :=
  profileWithObjects "P1" "Admin" [("Account", accessRD false false)]

/-- Scenario A, profile 2: `Account.delete = true`. -/
def c3P2 : NormalizedProfile :=
  profileWithObjects "P2" "Sales" [("Account", accessRD false true)]

/-- C3 counterexample: with `Account.delete = false, true` over two
profiles, no emitted item at `objects.Account.permissions.delete` has diff
type `removed`; the emitted item has diff type `added` (exactly one `true`,
the first branch of `determineDiffType`). -/
theorem C3_counterexample :
    (¬ ∃ d ∈ (DiffLib.compare [c3P1, c3P2] false "2024-01-01T00:00:00.000Z").differences,
        d.path = "objects.Account.permissions.delete" ∧ d.diffType = DiffType.removed) ∧
    ((DiffLib.compare [c3P1, c3P2] false "2024-01-01T00:00:00.000Z").differences.map
        (fun d => (d.path, d.diffType)))
      = [("objects.Account.permissions.delete", DiffType.added)] := by
  constructor
  · decide
  · decide

/-- C3 amended: for two profiles where P1 has `Account.delete = false` and
P2 has `Account.delete = true`, `compare` emits a `DiffItem` with path
`objects.Account.permissions.delete`, diff type `added`, and values
`{P1: false, P2: true}`. -/
theorem C3_two_way_added :
    (DiffLib.compare [c3P1, c3P2] false "2024-01-01T00:00:00.000Z").differences =
      [{ path := "objects.Account.permissions.delete"
         category := "objectPermission"
         objectName := some "Account"
         fieldName := none
         permissionName := some "delete"
         values := [("P1", DiffValue.b false), ("P2", DiffValue.b true)]
         diffType := DiffType.added }] := by
  decide

/-! ### C7: determinism, C9: the two duplicated engines agree -/

/-- C7: `compare` is deterministic apart from the timestamp: with identical
profiles and flag, the differences, summary, profile list and total count
are identical whatever the two wall-clock times were. -/
theorem C7_compare_deterministic (profiles : List NormalizedProfile)
    (includeUnchanged : Bool) (t1 t2 : String) :
    (DiffLib.compare profiles includeUnchanged t1).differences
        = (DiffLib.compare profiles includeUnchanged t2).differences ∧
    (DiffLib.compare profiles includeUnchanged t1).summary
        = (DiffLib.compare profiles includeUnchanged t2).summary ∧
    (DiffLib.compare profiles includeUnchanged t1).profiles
        = (DiffLib.compare profiles includeUnchanged t2).profiles ∧
    (DiffLib.compare profiles includeUnchanged t1).totalDifferences
        = (DiffLib.compare profiles includeUnchanged t2).totalDifferences :=
  ⟨rfl, rfl, rfl, rfl⟩

/-- C9: the diff engine of `src/lib/diff.ts` and the duplicated diff engine
of the backend service file return equal profiles, total counts,
differences and summaries on every input (timestamp excepted: both store
the wall-clock time of their own run). -/
theorem C9_engines_agree (profiles : List NormalizedProfile)
    (includeUnchanged : Bool) (t : String) :
    (DiffSrv.compare profiles includeUnchanged t).profiles
        = (DiffLib.compare profiles includeUnchanged t).profiles ∧
    (DiffSrv.compare profiles includeUnchanged t).totalDifferences
        = (DiffLib.compare profiles includeUnchanged t).totalDifferences ∧
    (DiffSrv.compare profiles includeUnchanged t).differences
        = (DiffLib.compare profiles includeUnchanged t).differences ∧
    (DiffSrv.compare profiles includeUnchanged t).summary
        = (DiffLib.compare profiles includeUnchanged t).summary :=
  ⟨rfl, rfl, rfl, rfl⟩

/-! ### C5: the sort invariant of the Profile Builder -/

/-- A concrete profile-identity row used by the builder scenarios. -/
def exProfile : SalesforceProfile := { Id := "P1", Name := "Admin", UserLicenseId := "L1" }

/-- A bundle in which the same resolved class name occurs twice. -/
def c5DupData : ProfileNormalizer.ProfileDataBundle :=
  { ProfileNormalizer.emptyBundle with apexClasses := ["A", "A"] }

/-- C5 counterexample: `[...list].sort()` does not deduplicate, so a bundle
whose `apexClasses` is `["A", "A"]` yields a `NormalizedProfile` whose
`apexClasses` is `["A", "A"]` — neither strictly sorted nor
duplicate-free. -/
theorem C5_counterexample :
    ¬ (List.Sorted (fun a b => a < b)
          ((ProfileNormalizer.buildNormalizedProfile exProfile c5DupData).apexClasses) ∧
        ((ProfileNormalizer.buildNormalizedProfile exProfile c5DupData).apexClasses).Nodup) := by
  intro h
  have he : (ProfileNormalizer.buildNormalizedProfile exProfile c5DupData).apexClasses
      = ["A", "A"] := by decide
  have h2 := h.2
  rw [he] at h2
  simp at h2

/-- C5 amended: for every profile and bundle, the four list fields of the
built `NormalizedProfile` are sorted in nondecreasing order; they are
strictly sorted with no duplicates whenever the bundle's corresponding
lists carry no duplicate names (the builder sorts but never
deduplicates). -/
theorem C5_sorted_lists (profile : SalesforceProfile)
    (data : ProfileNormalizer.ProfileDataBundle) :
    (List.Sorted (· ≤ ·) ((ProfileNormalizer.buildNormalizedProfile profile data).apexClasses) ∧
     List.Sorted (· ≤ ·) ((ProfileNormalizer.buildNormalizedProfile profile data).visualforcePages) ∧
     List.Sorted (· ≤ ·) ((ProfileNormalizer.buildNormalizedProfile profile data).lightningPages) ∧
     List.Sorted (· ≤ ·) ((ProfileNormalizer.buildNormalizedProfile profile data).recordTypes)) ∧
    (data.apexClasses.Nodup →
      List.Sorted (· < ·) ((ProfileNormalizer.buildNormalizedProfile profile data).apexClasses)) ∧
    (data.visualforcePages.Nodup →
      List.Sorted (· < ·) ((ProfileNormalizer.buildNormalizedProfile profile data).visualforcePages)) ∧
    (data.lightningPages.Nodup →
      List.Sorted (· < ·) ((ProfileNormalizer.buildNormalizedProfile profile data).lightningPages)) ∧
    (data.recordTypes.Nodup →
      List.Sorted (· < ·) ((ProfileNormalizer.buildNormalizedProfile profile data).recordTypes)) :=
  ⟨⟨sorted_jsSort data.apexClasses, sorted_jsSort data.visualforcePages,
    sorted_jsSort data.lightningPages, sorted_jsSort data.recordTypes⟩,
   fun h => sorted_lt_jsSort h, fun h => sorted_lt_jsSort h,
   fun h => sorted_lt_jsSort h, fun h => sorted_lt_jsSort h⟩

/-- A duplicate-free bundle for the C5 witness. -/
def c5NodupData : ProfileNormalizer.ProfileDataBundle :=
  { ProfileNormalizer.emptyBundle with
      apexClasses := ["B", "A"]
      visualforcePages := ["V"]
      lightningPages := []
      recordTypes := ["R2", "R1"] }

/-- Witness for C5 at a concrete duplicate-free bundle. -/
theorem C5_sorted_lists_witness :
    List.Sorted (· < ·) ((ProfileNormalizer.buildNormalizedProfile exProfile c5NodupData).apexClasses) ∧
    List.Sorted (· < ·) ((ProfileNormalizer.buildNormalizedProfile exProfile c5NodupData).visualforcePages) ∧
    List.Sorted (· < ·) ((ProfileNormalizer.buildNormalizedProfile exProfile c5NodupData).lightningPages) ∧
    List.Sorted (· < ·) ((ProfileNormalizer.buildNormalizedProfile exProfile c5NodupData).recordTypes) := by
  have h := C5_sorted_lists exProfile c5NodupData
  exact ⟨h.2.1 (by decide), h.2.2.1 (by decide), h.2.2.2.1 (by decide), h.2.2.2.2 (by decide)⟩

/-! ### C10: the field-name extraction rule -/

/-- A field-permission row whose `Field` value has no dot. -/
def c10PlainRow : SalesforceFieldPermission :=
  { Id := "FP1", ParentId := "PS1", SobjectType := "Opportunity", Field := "Revenue"
    PermissionsRead := true, PermissionsEdit := true }

/-- A bundle carrying only the dotless field row. -/
def c10PlainData : ProfileNormalizer.ProfileDataBundle :=
  { ProfileNormalizer.emptyBundle with fieldPermissions := [c10PlainRow] }

/-- A field-permission row whose `Field` value ends in a dot, so its second
dot-separated segment is the empty string. -/
def c10DotRow : SalesforceFieldPermission :=
  { Id := "FP2", ParentId := "PS1", SobjectType := "Obj", Field := "A."
    PermissionsRead := true, PermissionsEdit := false }

/-- A bundle carrying only the trailing-dot field row. -/
def c10DotData : ProfileNormalizer.ProfileDataBundle :=
  { ProfileNormalizer.emptyBundle with fieldPermissions := [c10DotRow] }

/-- C10 counterexample: for `Field = "A."` the second dot-separated segment
exists and is `""`, yet the extraction `split('.')[1] || Field` falls back
to the whole value (the empty segment is falsy), so the built profile keys
the field as `"A."`, not `""` as the claimed rule predicts. -/
theorem C10_counterexample :
    (jsSplitDot "A.").get? 1 = some "" ∧
    fieldNameOf "A." = "A." ∧ "A." ≠ "" ∧
    ((alookup ((ProfileNormalizer.buildNormalizedProfile exProfile c10DotData).objects) "Obj").map
        (fun a => a.fields.map Prod.fst)) = some ["A."] := by
  refine ⟨by decide, by decide, by decide, by decide⟩

/-- C10 amended: the field name is the second dot-separated segment of
`Field` when that segment exists and is non-empty; when `Field` has no
second segment (no dot) or the second segment is empty, the entire `Field`
value is used.  In particular `"Revenue"` keys `fields["Revenue"]` and
`"A.B.C"` yields `"B"`. -/
theorem C10_field_name_rule :
    (∀ f s, (jsSplitDot f).get? 1 = some s → s ≠ "" → fieldNameOf f = s) ∧
    (∀ f, (jsSplitDot f).get? 1 = none → fieldNameOf f = f) ∧
    (∀ f s, (jsSplitDot f).get? 1 = some s → s = "" → fieldNameOf f = f) ∧
    fieldNameOf "Revenue" = "Revenue" ∧
    fieldNameOf "A.B.C" = "B" ∧
    ((alookup ((ProfileNormalizer.buildNormalizedProfile exProfile c10PlainData).objects)
        "Opportunity").map (fun a => a.fields.map Prod.fst)) = some ["Revenue"] := by
  refine ⟨?_, ?_, ?_, by decide, by decide, by decide⟩
  · intro f s h hne
    unfold fieldNameOf
    rw [h]
    simp [hne]
  · intro f h
    unfold fieldNameOf
    rw [h]
  · intro f s h he
    unfold fieldNameOf
    rw [h, he]
    simp

/-- Witness for C10 at concrete `Field` values. -/
theorem C10_field_name_rule_witness :
    fieldNameOf "X.Y" = "Y" ∧ fieldNameOf "Plain" = "Plain" ∧ fieldNameOf "Z." = "Z." :=
  ⟨C10_field_name_rule.1 "X.Y" "Y" (by decide) (by decide),
   C10_field_name_rule.2.1 "Plain" (by decide),
   C10_field_name_rule.2.2.1 "Z." "" (by decide) rfl⟩

/-! ### C4: which requested profiles produce a normalized document -/

theorem alookup_initBundles_isSome {id : String} (profileIds : List String)
    (h : id ∈ profileIds) :
    (alookup (ProfileNormalizer.initBundles profileIds) id).isSome := by
  unfold ProfileNormalizer.initBundles
  suffices haux : ∀ (ids : List String) (acc : JMap ProfileNormalizer.ProfileDataBundle),
      id ∈ ids ∨ (alookup acc id).isSome →
      (alookup (ids.foldl (fun m i => aset m i ProfileNormalizer.emptyBundle) acc) id).isSome by
    exact haux profileIds [] (Or.inl h)
  intro ids
  induction ids with
  | nil =>
      intro acc h'
      cases h' with
      | inl h'' => cases h''
      | inr h'' => exact h''
  | cons i rest ih =>
      intro acc h'
      simp only [List.foldl_cons]
      apply ih
      cases h' with
      | inl h'' =>
          cases h'' with
          | head => right; rw [alookup_aset]; simp
          | tail _ hmem => left; exact hmem
      | inr h'' => exact Or.inr (isSome_alookup_aset i _ h'')

theorem alookup_buildProfilesMap_isSome {id : String} (l : List SalesforceProfile)
    (h : ∃ p ∈ l, p.Id = id) :
    (alookup (ProfileNormalizer.buildProfilesMap l) id).isSome := by
  unfold ProfileNormalizer.buildProfilesMap
  suffices haux : ∀ (ps : List SalesforceProfile) (acc : JMap SalesforceProfile),
      (∃ p ∈ ps, p.Id = id) ∨ (alookup acc id).isSome →
      (alookup (ps.foldl (fun m p => aset m p.Id p) acc) id).isSome by
    exact haux l [] (Or.inl h)
  intro ps
  induction ps with
  | nil =>
      intro acc h'
      cases h' with
      | inl h'' => obtain ⟨p, hp, _⟩ := h''; cases hp
      | inr h'' => exact h''
  | cons p rest ih =>
      intro acc h'
      simp only [List.foldl_cons]
      apply ih
      cases h' with
      | inl h'' =>
          obtain ⟨q, hq, hqid⟩ := h''
          cases hq with
          | head => right; rw [alookup_aset]; simp [hqid]
          | tail _ hmem => left; exact ⟨q, hmem, hqid⟩
      | inr h'' => exact Or.inr (isSome_alookup_aset p.Id p h'')

theorem alookup_groupDataByProfile_isSome (profileIds : List String)
    (permSetToProfileMap : JMap String)
    (objectPermissions : List SalesforceObjectPermission)
    (fieldPermissions : List SalesforceFieldPermission)
    (permissionSets : List SalesforcePermissionSet)
    (setupEntityAccess : List SalesforceSetupEntityAccess)
    (n1 n2 n3 n4 n5 : JMap String) {id : String} (hid : id ∈ profileIds) :
    (alookup (ProfileNormalizer.groupDataByProfile profileIds permSetToProfileMap
        objectPermissions fieldPermissions permissionSets setupEntityAccess
        n1 n2 n3 n4 n5) id).isSome := by
  unfold ProfileNormalizer.groupDataByProfile
  have hstep : ∀ {β : Type} (f : JMap ProfileNormalizer.ProfileDataBundle → β →
      JMap ProfileNormalizer.ProfileDataBundle),
      (∀ m b, (alookup m id).isSome → (alookup (f m b) id).isSome) →
      ∀ (l : List β) (m : JMap ProfileNormalizer.ProfileDataBundle),
        (alookup m id).isSome → (alookup (l.foldl f m) id).isSome :=
    fun f hf l m hm => foldl_preserve hf l m hm
  apply hstep
  · intro m b hm
    dsimp only
    repeat' split
    all_goals first | exact hm | exact isSome_alookup_aset _ _ hm
  apply hstep
  · intro m b hm
    dsimp only
    repeat' split
    all_goals first | exact hm | exact isSome_alookup_aset _ _ hm
  apply hstep
  · intro m b hm
    dsimp only
    repeat' split
    all_goals first | exact hm | exact isSome_alookup_aset _ _ hm
  apply hstep
  · intro m b hm
    dsimp only
    repeat' split
    all_goals first | exact hm | exact isSome_alookup_aset _ _ hm
  exact alookup_initBundles_isSome profileIds hid

theorem assemble_loop_length (profilesMap : JMap SalesforceProfile)
    (profileData : JMap ProfileNormalizer.ProfileDataBundle) :
    ∀ (ids : List String) (acc : List NormalizedProfile),
      (∀ id ∈ ids, (alookup profilesMap id).isSome ∧ (alookup profileData id).isSome) →
      (ids.foldl
        (fun acc profileId =>
          match alookup profilesMap profileId, alookup profileData profileId with
          | some profile, some data =>
              acc ++ [ProfileNormalizer.buildNormalizedProfile profile data]
          | _, _ => acc) acc).length = acc.length + ids.length := by
  intro ids
  induction ids with
  | nil => intro acc _; simp
  | cons i rest ih =>
      intro acc h
      have hi := h i (List.mem_cons_self i rest)
      obtain ⟨p, hp⟩ := Option.isSome_iff_exists.mp hi.1
      obtain ⟨d, hd⟩ := Option.isSome_iff_exists.mp hi.2
      simp only [List.foldl_cons, hp, hd]
      rw [ih _ (fun id hid => h id (List.mem_cons_of_mem i hid))]
      simp only [List.length_append, List.length_cons, List.length_nil]
      omega

theorem assembleProfiles_length (profilesMap : JMap SalesforceProfile)
    (profileData : JMap ProfileNormalizer.ProfileDataBundle) (ids : List String)
    (h : ∀ id ∈ ids, (alookup profilesMap id).isSome ∧ (alookup profileData id).isSome) :
    (ProfileNormalizer.assembleProfiles profilesMap profileData ids).length = ids.length := by
  unfold ProfileNormalizer.assembleProfiles
  rw [assemble_loop_length profilesMap profileData ids [] h]
  simp

/-- The three requested profile ids of the missing-container scenario. -/
def c4Ids : List String := ["P1", "P2", "P3"]

/-- A provider state in which all three requested profiles have identity
rows but only `P1` and `P2` have owned permission containers. -/
def c4Src : ProfileNormalizer.SourceData :=
  { allProfiles :=
      [{ Id := "P1", Name := "Admin", UserLicenseId := "L1" },
       { Id := "P2", Name := "Sales", UserLicenseId := "L1" },
       { Id := "P3", Name := "Support", UserLicenseId := "L1" }]
    permissionSetRows := [("P1", "PS1"), ("P2", "PS2")]
    objectPermissions := [], fieldPermissions := []
    permissionSets := [], setupEntityAccess := []
    apexClassNames := [], apexPageNames := [], recordTypeNames := []
    customTabNames := [], customAppNames := [] }

/-- C4 counterexample: requesting 3 profile ids of which one (`P3`) has no
owned container returns 3 normalized documents, not 2 — the bundle map is
initialized for every requested id, so only a missing profile-identity row
(not a missing container) drops a profile from the output. -/
theorem C4_counterexample :
    (ProfileNormalizer.normalizeProfiles c4Ids c4Src).length = 3 ∧
    (ProfileNormalizer.normalizeProfiles c4Ids c4Src).length ≠ 2 :=
  ⟨by decide, by decide⟩

/-- C4 amended: a requested profile is absent from `normalizeProfiles`
output only when its profile-identity row is missing; when every requested
id has an identity row, the output has one `NormalizedProfile` per
requested id — a profile with no owned container still yields an
(empty-data) document. -/
theorem C4_output_per_identity (profileIds : List String)
    (src : ProfileNormalizer.SourceData)
    (h : ∀ id ∈ profileIds, ∃ p ∈ src.allProfiles, p.Id = id) :
    (ProfileNormalizer.normalizeProfiles profileIds src).length = profileIds.length := by
  simp only [ProfileNormalizer.normalizeProfiles]
  apply assembleProfiles_length
  intro id hid
  exact ⟨alookup_buildProfilesMap_isSome src.allProfiles (h id hid),
    alookup_groupDataByProfile_isSome _ _ _ _ _ _ _ _ _ _ _ hid⟩

/-- Witness for C4 at the concrete missing-container scenario. -/
theorem C4_output_per_identity_witness :
    (ProfileNormalizer.normalizeProfiles c4Ids c4Src).length = c4Ids.length :=
  C4_output_per_identity c4Ids c4Src (by decide)

/-! ### C8: default synthesis of object permissions for field-only objects -/

theorem fieldStep_of_none (m : JMap ObjectAccess) (fp : SalesforceFieldPermission)
    (h : alookup m fp.SobjectType = none) :
    ProfileNormalizer.fieldStep m fp =
      aset (aset m fp.SobjectType
          { permissions := ProfileNormalizer.defaultObjectPermission, fields := [] })
        fp.SobjectType
        { permissions := ProfileNormalizer.defaultObjectPermission
          fields := aset [] (fieldNameOf fp.Field)
            { read := fp.PermissionsRead, edit := fp.PermissionsEdit } } := by
  unfold ProfileNormalizer.fieldStep
  simp only [h, alookup_aset, if_pos rfl, if_true]

theorem fieldStep_of_some (m : JMap ObjectAccess) (fp : SalesforceFieldPermission)
    (acc : ObjectAccess) (h : alookup m fp.SobjectType = some acc) :
    ProfileNormalizer.fieldStep m fp =
      aset m fp.SobjectType
        { acc with
            fields := aset acc.fields (fieldNameOf fp.Field)
              { read := fp.PermissionsRead, edit := fp.PermissionsEdit } } := by
  unfold ProfileNormalizer.fieldStep
  simp only [h]

/-- The object entry at `o` is either absent or carries the synthesized
default all-false permissions. -/
def permsSynthesizedAt (o : String) (m : JMap ObjectAccess) : Prop :=
  alookup m o = none ∨
    ∃ acc, alookup m o = some acc ∧
      acc.permissions = ProfileNormalizer.defaultObjectPermission

/-- The object entry at `o` exists, carries default permissions, and its
field map has `v` at `fname`. -/
def fieldEntryAt (o fname : String) (v : FieldPermission) (m : JMap ObjectAccess) : Prop :=
  ∃ acc, alookup m o = some acc ∧
    acc.permissions = ProfileNormalizer.defaultObjectPermission ∧
    alookup acc.fields fname = some v

theorem fieldStep_preserves_synth {o : String} (m : JMap ObjectAccess)
    (fp : SalesforceFieldPermission) (h : permsSynthesizedAt o m) :
    permsSynthesizedAt o (ProfileNormalizer.fieldStep m fp) := by
  by_cases ho : fp.SobjectType = o
  · cases halo : alookup m fp.SobjectType with
    | none =>
        right
        refine ⟨{ permissions := ProfileNormalizer.defaultObjectPermission
                  fields := aset [] (fieldNameOf fp.Field)
                    { read := fp.PermissionsRead, edit := fp.PermissionsEdit } }, ?_, rfl⟩
        rw [fieldStep_of_none m fp halo, alookup_aset, if_pos ho]
    | some acc =>
        have hperm : acc.permissions = ProfileNormalizer.defaultObjectPermission := by
          cases h with
          | inl h' => rw [ho] at halo; rw [h'] at halo; cases halo
          | inr h' =>
              obtain ⟨acc', ha', hp'⟩ := h'
              rw [ho] at halo
              rw [ha'] at halo
              cases halo
              exact hp'
        right
        refine ⟨{ acc with
                  fields := aset acc.fields (fieldNameOf fp.Field)
                    { read := fp.PermissionsRead, edit := fp.PermissionsEdit } }, ?_, hperm⟩
        rw [fieldStep_of_some m fp acc halo, alookup_aset, if_pos ho]
  · cases halo : alookup m fp.SobjectType with
    | none =>
        cases h with
        | inl h' =>
            left
            rw [fieldStep_of_none m fp halo, alookup_aset, if_neg ho, alookup_aset, if_neg ho]
            exact h'
        | inr h' =>
            obtain ⟨acc', ha', hp'⟩ := h'
            right
            refine ⟨acc', ?_, hp'⟩
            rw [fieldStep_of_none m fp halo, alookup_aset, if_neg ho, alookup_aset, if_neg ho]
            exact ha'
    | some acc =>
        cases h with
        | inl h' =>
            left
            rw [fieldStep_of_some m fp acc halo, alookup_aset, if_neg ho]
            exact h'
        | inr h' =>
            obtain ⟨acc', ha', hp'⟩ := h'
            right
            refine ⟨acc', ?_, hp'⟩
            rw [fieldStep_of_some m fp acc halo, alookup_aset, if_neg ho]
            exact ha'

theorem fieldStep_establishes {o : String} (m : JMap ObjectAccess)
    (fp : SalesforceFieldPermission) (ho : fp.SobjectType = o)
    (h : permsSynthesizedAt o m) :
    fieldEntryAt o (fieldNameOf fp.Field)
      { read := fp.PermissionsRead, edit := fp.PermissionsEdit }
      (ProfileNormalizer.fieldStep m fp) := by
  cases halo : alookup m fp.SobjectType with
  | none =>
      refine ⟨{ permissions := ProfileNormalizer.defaultObjectPermission
                fields := aset [] (fieldNameOf fp.Field)
                  { read := fp.PermissionsRead, edit := fp.PermissionsEdit } }, ?_, rfl, ?_⟩
      · rw [fieldStep_of_none m fp halo, alookup_aset, if_pos ho]
      · rw [alookup_aset, if_pos rfl]
  | some acc =>
      have hperm : acc.permissions = ProfileNormalizer.defaultObjectPermission := by
        cases h with
        | inl h' => rw [ho] at halo; rw [h'] at halo; cases halo
        | inr h' =>
            obtain ⟨acc', ha', hp'⟩ := h'
            rw [ho] at halo
            rw [ha'] at halo
            cases halo
            exact hp'
      refine ⟨{ acc with
                fields := aset acc.fields (fieldNameOf fp.Field)
                  { read := fp.PermissionsRead, edit := fp.PermissionsEdit } }, ?_, hperm, ?_⟩
      · rw [fieldStep_of_some m fp acc halo, alookup_aset, if_pos ho]
      · rw [alookup_aset, if_pos rfl]

theorem fieldStep_keeps_entry {o fname : String} {v : FieldPermission}
    (m : JMap ObjectAccess) (fp : SalesforceFieldPermission)
    (hS : fieldEntryAt o fname v m)
    (hcase : fp.SobjectType = o → fieldNameOf fp.Field = fname →
      ({ read := fp.PermissionsRead, edit := fp.PermissionsEdit } : FieldPermission) = v) :
    fieldEntryAt o fname v (ProfileNormalizer.fieldStep m fp) := by
  obtain ⟨acc, ha, hperm, hfield⟩ := hS
  by_cases ho : fp.SobjectType = o
  · have halo : alookup m fp.SobjectType = some acc := by rw [ho]; exact ha
    rw [fieldStep_of_some m fp acc halo]
    by_cases hf : fieldNameOf fp.Field = fname
    · refine ⟨{ acc with
                fields := aset acc.fields (fieldNameOf fp.Field)
                  { read := fp.PermissionsRead, edit := fp.PermissionsEdit } }, ?_, hperm, ?_⟩
      · rw [alookup_aset, if_pos ho]
      · rw [alookup_aset, if_pos hf, hcase ho hf]
    · refine ⟨{ acc with
                fields := aset acc.fields (fieldNameOf fp.Field)
                  { read := fp.PermissionsRead, edit := fp.PermissionsEdit } }, ?_, hperm, ?_⟩
      · rw [alookup_aset, if_pos ho]
      · rw [alookup_aset, if_neg hf]
        exact hfield
  · cases halo : alookup m fp.SobjectType with
    | none =>
        refine ⟨acc, ?_, hperm, hfield⟩
        rw [fieldStep_of_none m fp halo, alookup_aset, if_neg ho, alookup_aset, if_neg ho]
        exact ha
    | some acc' =>
        refine ⟨acc, ?_, hperm, hfield⟩
        rw [fieldStep_of_some m fp acc' halo, alookup_aset, if_neg ho]
        exact ha

theorem foldl_fieldStep_keeps_entry {o fname : String} {v : FieldPermission}
    (l : List SalesforceFieldPermission) :
    ∀ m, fieldEntryAt o fname v m →
      (∀ fp ∈ l, fp.SobjectType = o → fieldNameOf fp.Field = fname →
        ({ read := fp.PermissionsRead, edit := fp.PermissionsEdit } : FieldPermission) = v) →
      fieldEntryAt o fname v (l.foldl ProfileNormalizer.fieldStep m) := by
  induction l with
  | nil => intro m h _; exact h
  | cons fp rest ih =>
      intro m h huniq
      simp only [List.foldl_cons]
      exact ih _ (fieldStep_keeps_entry m fp h (huniq fp (List.mem_cons_self fp rest)))
        (fun fp' hfp' => huniq fp' (List.mem_cons_of_mem fp hfp'))

theorem foldl_fieldStep_main {o : String} {r : SalesforceFieldPermission}
    (hro : r.SobjectType = o) (l : List SalesforceFieldPermission) :
    ∀ m, permsSynthesizedAt o m → r ∈ l →
      (∀ r' ∈ l, r'.SobjectType = o → fieldNameOf r'.Field = fieldNameOf r.Field →
        ({ read := r'.PermissionsRead, edit := r'.PermissionsEdit } : FieldPermission)
          = { read := r.PermissionsRead, edit := r.PermissionsEdit }) →
      fieldEntryAt o (fieldNameOf r.Field)
        { read := r.PermissionsRead, edit := r.PermissionsEdit }
        (l.foldl ProfileNormalizer.fieldStep m) := by
  induction l with
  | nil => intro m _ hmem _; cases hmem
  | cons fp rest ih =>
      intro m hT hmem huniq
      simp only [List.foldl_cons]
      by_cases hmatch : fp.SobjectType = o ∧ fieldNameOf fp.Field = fieldNameOf r.Field
      · have hval := huniq fp (List.mem_cons_self fp rest) hmatch.1 hmatch.2
        have hest := fieldStep_establishes m fp hmatch.1 hT
        rw [hmatch.2, hval] at hest
        exact foldl_fieldStep_keeps_entry rest _ hest
          (fun fp' hfp' => huniq fp' (List.mem_cons_of_mem fp hfp'))
      · have hr : r ∈ rest := by
          cases hmem with
          | head => exact absurd ⟨hro, rfl⟩ hmatch
          | tail _ h' => exact h'
        exact ih _ (fieldStep_preserves_synth m fp hT) hr
          (fun r' hr' => huniq r' (List.mem_cons_of_mem fp hr'))

theorem alookup_objFold_none {o : String} (rows : List SalesforceObjectPermission)
    (h : ∀ op ∈ rows, op.SobjectType ≠ o) :
    ∀ acc : JMap ObjectAccess, alookup acc o = none →
      alookup (rows.foldl ProfileNormalizer.objStep acc) o = none := by
  induction rows with
  | nil => intro acc hacc; exact hacc
  | cons op rest ih =>
      intro acc hacc
      simp only [List.foldl_cons]
      apply ih (fun op' hop' => h op' (List.mem_cons_of_mem op hop'))
      unfold ProfileNormalizer.objStep
      rw [alookup_aset, if_neg (h op (List.mem_cons_self op rest))]
      exact hacc

/-- C8: a field-permission row for an object with no object-permission row
produces an `objects` entry whose six sub-permissions are all false, and
(when no other row targets the same object and field name with different
flags) the field entry carries the row's read/edit values. -/
theorem C8_default_synthesis (profile : SalesforceProfile)
    (data : ProfileNormalizer.ProfileDataBundle) (o : String)
    (r : SalesforceFieldPermission)
    (hno : ∀ op ∈ data.objectPermissions, op.SobjectType ≠ o)
    (hmem : r ∈ data.fieldPermissions) (hro : r.SobjectType = o)
    (huniq : ∀ r' ∈ data.fieldPermissions, r'.SobjectType = o →
      fieldNameOf r'.Field = fieldNameOf r.Field →
      r'.PermissionsRead = r.PermissionsRead ∧ r'.PermissionsEdit = r.PermissionsEdit) :
    ∃ acc, alookup (ProfileNormalizer.buildNormalizedProfile profile data).objects o
        = some acc ∧
      acc.permissions = ProfileNormalizer.defaultObjectPermission ∧
      alookup acc.fields (fieldNameOf r.Field)
        = some { read := r.PermissionsRead, edit := r.PermissionsEdit } := by
  have hobj : (ProfileNormalizer.buildNormalizedProfile profile data).objects
      = data.fieldPermissions.foldl ProfileNormalizer.fieldStep
          (data.objectPermissions.foldl ProfileNormalizer.objStep []) := rfl
  rw [hobj]
  have hseed : alookup (data.objectPermissions.foldl ProfileNormalizer.objStep []) o = none :=
    alookup_objFold_none data.objectPermissions hno [] rfl
  exact foldl_fieldStep_main hro data.fieldPermissions _ (Or.inl hseed) hmem
    (fun r' hr' h1 h2 => by
      obtain ⟨hre, hed⟩ := huniq r' hr' h1 h2
      rw [hre, hed])

/-- A bundle with one field row for an object `Gap` that has no
object-permission row. -/
def c8Data : ProfileNormalizer.ProfileDataBundle :=
  { ProfileNormalizer.emptyBundle with
      fieldPermissions :=
        [{ Id := "F1", ParentId := "PS1", SobjectType := "Gap", Field := "Gap.Revenue"
           PermissionsRead := true, PermissionsEdit := false }] }

/-- Witness for C8 at the concrete one-row bundle. -/
theorem C8_default_synthesis_witness :
    ∃ acc, alookup (ProfileNormalizer.buildNormalizedProfile exProfile c8Data).objects "Gap"
        = some acc ∧
      acc.permissions = ProfileNormalizer.defaultObjectPermission ∧
      alookup acc.fields (fieldNameOf "Gap.Revenue") = some { read := true, edit := false } :=
  C8_default_synthesis exProfile c8Data "Gap"
    { Id := "F1", ParentId := "PS1", SobjectType := "Gap", Field := "Gap.Revenue"
      PermissionsRead := true, PermissionsEdit := false }
    (by decide) (by decide) (by decide) (by decide)

/-! ### C6: category partition and summary accounting -/

/-- The nine fixed `DiffItem` categories. -/
def nineCategories : List String :=
  ["objectPermission", "fieldPermission", "systemPermission", "apexClass",
   "visualforcePage", "lightningPage", "recordType", "tabVisibility", "appVisibility"]

/-- The sum of the nine summary counters. -/
def summarySum (s : Summary) : Nat :=
  s.objectPermissions + s.fieldPermissions + s.systemPermissions + s.apexClasses +
    s.visualforcePages + s.lightningPages + s.recordTypes + s.tabVisibilities +
    s.appVisibilities

/-- The number of non-`unchanged` items of category `c` in a list. -/
def countCat (c : String) (l : List DiffItem) : Nat :=
  l.countP (fun d => !d.diffType.isUnchanged && d.category == c)

theorem countCat_append (c : String) (l1 l2 : List DiffItem) :
    countCat c (l1 ++ l2) = countCat c l1 + countCat c l2 :=
  List.countP_append _ l1 l2

theorem length_filter_emitted (inc : Bool) (items : List DiffItem) :
    ((DiffLib.emitted inc items).filter (fun d => !d.diffType.isUnchanged)).length
      = DiffLib.countChanged items := by
  unfold DiffLib.emitted DiffLib.countChanged
  rw [List.filter_filter, List.countP_eq_length_filter]
  have hpred : (fun d : DiffItem => !d.diffType.isUnchanged && (!d.diffType.isUnchanged || inc))
      = (fun d : DiffItem => !d.diffType.isUnchanged) := by
    funext d
    cases d.diffType.isUnchanged <;> cases inc <;> rfl
  rw [hpred]

theorem countCat_emitted (c : String) (inc : Bool) (items : List DiffItem) :
    countCat c (DiffLib.emitted inc items) = countCat c items := by
  unfold countCat DiffLib.emitted
  rw [List.countP_filter]
  have hpred : (fun d : DiffItem =>
        (!d.diffType.isUnchanged && d.category == c) && (!d.diffType.isUnchanged || inc))
      = (fun d : DiffItem => !d.diffType.isUnchanged && d.category == c) := by
    funext d
    cases d.diffType.isUnchanged <;> cases d.category == c <;> cases inc <;> rfl
  rw [hpred]

theorem countCat_of_const_ne {c' : String} {items : List DiffItem}
    (h : ∀ d ∈ items, d.category = c') (c : String) (hne : c' ≠ c) :
    countCat c items = 0 := by
  unfold countCat
  rw [List.countP_eq_zero]
  intro d hd
  simp [h d hd, hne]

theorem countCat_of_const_eq {c : String} {items : List DiffItem}
    (h : ∀ d ∈ items, d.category = c) :
    countCat c items = DiffLib.countChanged items := by
  unfold countCat DiffLib.countChanged
  apply List.countP_congr
  intro d hd
  simp [h d hd]

theorem mem_of_mem_emitted {d : DiffItem} {inc : Bool} {items : List DiffItem}
    (h : d ∈ DiffLib.emitted inc items) : d ∈ items :=
  (List.mem_filter.mp h).1

theorem cat_objectPermissionItems (profiles : List NormalizedProfile) :
    ∀ d ∈ DiffLib.objectPermissionItems profiles, d.category = "objectPermission" := by
  intro d hd
  unfold DiffLib.objectPermissionItems at hd
  simp only [List.mem_flatMap, List.mem_map] at hd
  obtain ⟨o, _, pt, _, rfl⟩ := hd
  rfl

theorem cat_fieldPermissionItems (profiles : List NormalizedProfile) :
    ∀ d ∈ DiffLib.fieldPermissionItems profiles, d.category = "fieldPermission" := by
  intro d hd
  unfold DiffLib.fieldPermissionItems at hd
  simp only [List.mem_flatMap, List.mem_map] at hd
  obtain ⟨ofn, _, fn, _, pt, _, rfl⟩ := hd
  rfl

theorem cat_systemPermissionItems (profiles : List NormalizedProfile) :
    ∀ d ∈ DiffLib.systemPermissionItems profiles, d.category = "systemPermission" := by
  intro d hd
  unfold DiffLib.systemPermissionItems at hd
  simp only [List.mem_map] at hd
  obtain ⟨p, _, rfl⟩ := hd
  rfl

theorem cat_arrayPropertyItems (profiles : List NormalizedProfile) (pname : String)
    (sel : NormalizedProfile → List String) (c : String) :
    ∀ d ∈ DiffLib.arrayPropertyItems profiles pname sel c, d.category = c := by
  intro d hd
  unfold DiffLib.arrayPropertyItems at hd
  simp only [List.mem_map] at hd
  obtain ⟨it, _, rfl⟩ := hd
  rfl

theorem cat_tabVisibilityItems (profiles : List NormalizedProfile) :
    ∀ d ∈ DiffLib.tabVisibilityItems profiles, d.category = "tabVisibility" := by
  intro d hd
  unfold DiffLib.tabVisibilityItems at hd
  simp only [List.mem_map] at hd
  obtain ⟨t, _, rfl⟩ := hd
  rfl

theorem cat_appVisibilityItems (profiles : List NormalizedProfile) :
    ∀ d ∈ DiffLib.appVisibilityItems profiles, d.category = "appVisibility" := by
  intro d hd
  unfold DiffLib.appVisibilityItems at hd
  simp only [List.mem_flatMap] at hd
  obtain ⟨app, _, hmem⟩ := hd
  simp only [List.mem_cons, List.mem_singleton] at hmem
  rcases hmem with rfl | rfl | h
  · rfl
  · rfl
  · cases h

theorem compare_differences_eq (profiles : List NormalizedProfile) (inc : Bool) (t : String) :
    (DiffLib.compare profiles inc t).differences =
      DiffLib.emitted inc (DiffLib.objectPermissionItems profiles) ++
      DiffLib.emitted inc (DiffLib.fieldPermissionItems profiles) ++
      DiffLib.emitted inc (DiffLib.systemPermissionItems profiles) ++
      DiffLib.emitted inc (DiffLib.arrayPropertyItems profiles "apexClasses"
        NormalizedProfile.apexClasses "apexClass") ++
      DiffLib.emitted inc (DiffLib.arrayPropertyItems profiles "visualforcePages"
        NormalizedProfile.visualforcePages "visualforcePage") ++
      DiffLib.emitted inc (DiffLib.arrayPropertyItems profiles "lightningPages"
        NormalizedProfile.lightningPages "lightningPage") ++
      DiffLib.emitted inc (DiffLib.arrayPropertyItems profiles "recordTypes"
        NormalizedProfile.recordTypes "recordType") ++
      DiffLib.emitted inc (DiffLib.tabVisibilityItems profiles) ++
      DiffLib.emitted inc (DiffLib.appVisibilityItems profiles) := rfl

theorem compare_summary_eq (profiles : List NormalizedProfile) (inc : Bool) (t : String) :
    (DiffLib.compare profiles inc t).summary =
      { objectPermissions := DiffLib.countChanged (DiffLib.objectPermissionItems profiles)
        fieldPermissions := DiffLib.countChanged (DiffLib.fieldPermissionItems profiles)
        systemPermissions := DiffLib.countChanged (DiffLib.systemPermissionItems profiles)
        apexClasses := DiffLib.countChanged (DiffLib.arrayPropertyItems profiles "apexClasses"
          NormalizedProfile.apexClasses "apexClass")
        visualforcePages := DiffLib.countChanged (DiffLib.arrayPropertyItems profiles
          "visualforcePages" NormalizedProfile.visualforcePages "visualforcePage")
        lightningPages := DiffLib.countChanged (DiffLib.arrayPropertyItems profiles
          "lightningPages" NormalizedProfile.lightningPages "lightningPage")
        recordTypes := DiffLib.countChanged (DiffLib.arrayPropertyItems profiles "recordTypes"
          NormalizedProfile.recordTypes "recordType")
        tabVisibilities := DiffLib.countChanged (DiffLib.tabVisibilityItems profiles)
        appVisibilities := DiffLib.countChanged (DiffLib.appVisibilityItems profiles) } := rfl

theorem compare_total_eq (profiles : List NormalizedProfile) (inc : Bool) (t : String) :
    (DiffLib.compare profiles inc t).totalDifferences =
      (((DiffLib.compare profiles inc t).differences).filter
        (fun d => !d.diffType.isUnchanged)).length := rfl

theorem countCat_compare (profiles : List NormalizedProfile) (inc : Bool) (t : String)
    (c : String) :
    countCat c (DiffLib.compare profiles inc t).differences =
      countCat c (DiffLib.objectPermissionItems profiles) +
      countCat c (DiffLib.fieldPermissionItems profiles) +
      countCat c (DiffLib.systemPermissionItems profiles) +
      countCat c (DiffLib.arrayPropertyItems profiles "apexClasses"
        NormalizedProfile.apexClasses "apexClass") +
      countCat c (DiffLib.arrayPropertyItems profiles "visualforcePages"
        NormalizedProfile.visualforcePages "visualforcePage") +
      countCat c (DiffLib.arrayPropertyItems profiles "lightningPages"
        NormalizedProfile.lightningPages "lightningPage") +
      countCat c (DiffLib.arrayPropertyItems profiles "recordTypes"
        NormalizedProfile.recordTypes "recordType") +
      countCat c (DiffLib.tabVisibilityItems profiles) +
      countCat c (DiffLib.appVisibilityItems profiles) := by
  rw [compare_differences_eq]
  simp only [countCat_append, countCat_emitted]

/-- C6: for every comparison (any profiles, either flag), every emitted
item's category is one of the nine fixed categories, each summary counter
equals the number of non-`unchanged` items of its own category (each
non-`unchanged` item is counted by exactly the counter keyed by its
category), and the sum of the nine counters equals `totalDifferences`. -/
theorem C6_category_partition (profiles : List NormalizedProfile)
    (includeUnchanged : Bool) (timestamp : String) :
    (∀ d ∈ (DiffLib.compare profiles includeUnchanged timestamp).differences,
      d.category ∈ nineCategories) ∧
    (DiffLib.compare profiles includeUnchanged timestamp).summary.objectPermissions
      = countCat "objectPermission"
          (DiffLib.compare profiles includeUnchanged timestamp).differences ∧
    (DiffLib.compare profiles includeUnchanged timestamp).summary.fieldPermissions
      = countCat "fieldPermission"
          (DiffLib.compare profiles includeUnchanged timestamp).differences ∧
    (DiffLib.compare profiles includeUnchanged timestamp).summary.systemPermissions
      = countCat "systemPermission"
          (DiffLib.compare profiles includeUnchanged timestamp).differences ∧
    (DiffLib.compare profiles includeUnchanged timestamp).summary.apexClasses
      = countCat "apexClass"
          (DiffLib.compare profiles includeUnchanged timestamp).differences ∧
    (DiffLib.compare profiles includeUnchanged timestamp).summary.visualforcePages
      = countCat "visualforcePage"
          (DiffLib.compare profiles includeUnchanged timestamp).differences ∧
    (DiffLib.compare profiles includeUnchanged timestamp).summary.lightningPages
      = countCat "lightningPage"
          (DiffLib.compare profiles includeUnchanged timestamp).differences ∧
    (DiffLib.compare profiles includeUnchanged timestamp).summary.recordTypes
      = countCat "recordType"
          (DiffLib.compare profiles includeUnchanged timestamp).differences ∧
    (DiffLib.compare profiles includeUnchanged timestamp).summary.tabVisibilities
      = countCat "tabVisibility"
          (DiffLib.compare profiles includeUnchanged timestamp).differences ∧
    (DiffLib.compare profiles includeUnchanged timestamp).summary.appVisibilities
      = countCat "appVisibility"
          (DiffLib.compare profiles includeUnchanged timestamp).differences ∧
    summarySum (DiffLib.compare profiles includeUnchanged timestamp).summary
      = (DiffLib.compare profiles includeUnchanged timestamp).totalDifferences := by
  refine ⟨?_, ?_, ?_, ?_, ?_, ?_, ?_, ?_, ?_, ?_, ?_⟩
  · intro d hd
    rw [compare_differences_eq] at hd
    simp only [List.mem_append] at hd
    rcases hd with ((((((((h | h) | h) | h) | h) | h) | h) | h) | h)
    · have hc := cat_objectPermissionItems profiles d (mem_of_mem_emitted h)
      simp [nineCategories, hc]
    · have hc := cat_fieldPermissionItems profiles d (mem_of_mem_emitted h)
      simp [nineCategories, hc]
    · have hc := cat_systemPermissionItems profiles d (mem_of_mem_emitted h)
      simp [nineCategories, hc]
    · have hc := cat_arrayPropertyItems profiles "apexClasses" NormalizedProfile.apexClasses "apexClass" d (mem_of_mem_emitted h)
      simp [nineCategories, hc]
    · have hc := cat_arrayPropertyItems profiles "visualforcePages" NormalizedProfile.visualforcePages "visualforcePage" d (mem_of_mem_emitted h)
      simp [nineCategories, hc]
    · have hc := cat_arrayPropertyItems profiles "lightningPages" NormalizedProfile.lightningPages "lightningPage" d (mem_of_mem_emitted h)
      simp [nineCategories, hc]
    · have hc := cat_arrayPropertyItems profiles "recordTypes" NormalizedProfile.recordTypes "recordType" d (mem_of_mem_emitted h)
      simp [nineCategories, hc]
    · have hc := cat_tabVisibilityItems profiles d (mem_of_mem_emitted h)
      simp [nineCategories, hc]
    · have hc := cat_appVisibilityItems profiles d (mem_of_mem_emitted h)
      simp [nineCategories, hc]
  · rw [compare_summary_eq, countCat_compare profiles includeUnchanged timestamp "objectPermission",
        countCat_of_const_eq (cat_objectPermissionItems profiles),
        countCat_of_const_ne (cat_fieldPermissionItems profiles) "objectPermission" (by decide),
        countCat_of_const_ne (cat_systemPermissionItems profiles) "objectPermission" (by decide),
        countCat_of_const_ne (cat_arrayPropertyItems profiles "apexClasses" NormalizedProfile.apexClasses "apexClass") "objectPermission" (by decide),
        countCat_of_const_ne (cat_arrayPropertyItems profiles "visualforcePages" NormalizedProfile.visualforcePages "visualforcePage") "objectPermission" (by decide),
        countCat_of_const_ne (cat_arrayPropertyItems profiles "lightningPages" NormalizedProfile.lightningPages "lightningPage") "objectPermission" (by decide),
        countCat_of_const_ne (cat_arrayPropertyItems profiles "recordTypes" NormalizedProfile.recordTypes "recordType") "objectPermission" (by decide),
        countCat_of_const_ne (cat_tabVisibilityItems profiles) "objectPermission" (by decide),
        countCat_of_const_ne (cat_appVisibilityItems profiles) "objectPermission" (by decide)]
    simp
  · rw [compare_summary_eq, countCat_compare profiles includeUnchanged timestamp "fieldPermission",
        countCat_of_const_ne (cat_objectPermissionItems profiles) "fieldPermission" (by decide),
        countCat_of_const_eq (cat_fieldPermissionItems profiles),
        countCat_of_const_ne (cat_systemPermissionItems profiles) "fieldPermission" (by decide),
        countCat_of_const_ne (cat_arrayPropertyItems profiles "apexClasses" NormalizedProfile.apexClasses "apexClass") "fieldPermission" (by decide),
        countCat_of_const_ne (cat_arrayPropertyItems profiles "visualforcePages" NormalizedProfile.visualforcePages "visualforcePage") "fieldPermission" (by decide),
        countCat_of_const_ne (cat_arrayPropertyItems profiles "lightningPages" NormalizedProfile.lightningPages "lightningPage") "fieldPermission" (by decide),
        countCat_of_const_ne (cat_arrayPropertyItems profiles "recordTypes" NormalizedProfile.recordTypes "recordType") "fieldPermission" (by decide),
        countCat_of_const_ne (cat_tabVisibilityItems profiles) "fieldPermission" (by decide),
        countCat_of_const_ne (cat_appVisibilityItems profiles) "fieldPermission" (by decide)]
    simp
  · rw [compare_summary_eq, countCat_compare profiles includeUnchanged timestamp "systemPermission",
        countCat_of_const_ne (cat_objectPermissionItems profiles) "systemPermission" (by decide),
        countCat_of_const_ne (cat_fieldPermissionItems profiles) "systemPermission" (by decide),
        countCat_of_const_eq (cat_systemPermissionItems profiles),
        countCat_of_const_ne (cat_arrayPropertyItems profiles "apexClasses" NormalizedProfile.apexClasses "apexClass") "systemPermission" (by decide),
        countCat_of_const_ne (cat_arrayPropertyItems profiles "visualforcePages" NormalizedProfile.visualforcePages "visualforcePage") "systemPermission" (by decide),
        countCat_of_const_ne (cat_arrayPropertyItems profiles "lightningPages" NormalizedProfile.lightningPages "lightningPage") "systemPermission" (by decide),
        countCat_of_const_ne (cat_arrayPropertyItems profiles "recordTypes" NormalizedProfile.recordTypes "recordType") "systemPermission" (by decide),
        countCat_of_const_ne (cat_tabVisibilityItems profiles) "systemPermission" (by decide),
        countCat_of_const_ne (cat_appVisibilityItems profiles) "systemPermission" (by decide)]
    simp
  · rw [compare_summary_eq, countCat_compare profiles includeUnchanged timestamp "apexClass",
        countCat_of_const_ne (cat_objectPermissionItems profiles) "apexClass" (by decide),
        countCat_of_const_ne (cat_fieldPermissionItems profiles) "apexClass" (by decide),
        countCat_of_const_ne (cat_systemPermissionItems profiles) "apexClass" (by decide),
        countCat_of_const_eq (cat_arrayPropertyItems profiles "apexClasses" NormalizedProfile.apexClasses "apexClass"),
        countCat_of_const_ne (cat_arrayPropertyItems profiles "visualforcePages" NormalizedProfile.visualforcePages "visualforcePage") "apexClass" (by decide),
        countCat_of_const_ne (cat_arrayPropertyItems profiles "lightningPages" NormalizedProfile.lightningPages "lightningPage") "apexClass" (by decide),
        countCat_of_const_ne (cat_arrayPropertyItems profiles "recordTypes" NormalizedProfile.recordTypes "recordType") "apexClass" (by decide),
        countCat_of_const_ne (cat_tabVisibilityItems profiles) "apexClass" (by decide),
        countCat_of_const_ne (cat_appVisibilityItems profiles) "apexClass" (by decide)]
    simp
  · rw [compare_summary_eq, countCat_compare profiles includeUnchanged timestamp "visualforcePage",
        countCat_of_const_ne (cat_objectPermissionItems profiles) "visualforcePage" (by decide),
        countCat_of_const_ne (cat_fieldPermissionItems profiles) "visualforcePage" (by decide),
        countCat_of_const_ne (cat_systemPermissionItems profiles) "visualforcePage" (by decide),
        countCat_of_const_ne (cat_arrayPropertyItems profiles "apexClasses" NormalizedProfile.apexClasses "apexClass") "visualforcePage" (by decide),
        countCat_of_const_eq (cat_arrayPropertyItems profiles "visualforcePages" NormalizedProfile.visualforcePages "visualforcePage"),
        countCat_of_const_ne (cat_arrayPropertyItems profiles "lightningPages" NormalizedProfile.lightningPages "lightningPage") "visualforcePage" (by decide),
        countCat_of_const_ne (cat_arrayPropertyItems profiles "recordTypes" NormalizedProfile.recordTypes "recordType") "visualforcePage" (by decide),
        countCat_of_const_ne (cat_tabVisibilityItems profiles) "visualforcePage" (by decide),
        countCat_of_const_ne (cat_appVisibilityItems profiles) "visualforcePage" (by decide)]
    simp
  · rw [compare_summary_eq, countCat_compare profiles includeUnchanged timestamp "lightningPage",
        countCat_of_const_ne (cat_objectPermissionItems profiles) "lightningPage" (by decide),
        countCat_of_const_ne (cat_fieldPermissionItems profiles) "lightningPage" (by decide),
        countCat_of_const_ne (cat_systemPermissionItems profiles) "lightningPage" (by decide),
        countCat_of_const_ne (cat_arrayPropertyItems profiles "apexClasses" NormalizedProfile.apexClasses "apexClass") "lightningPage" (by decide),
        countCat_of_const_ne (cat_arrayPropertyItems profiles "visualforcePages" NormalizedProfile.visualforcePages "visualforcePage") "lightningPage" (by decide),
        countCat_of_const_eq (cat_arrayPropertyItems profiles "lightningPages" NormalizedProfile.lightningPages "lightningPage"),
        countCat_of_const_ne (cat_arrayPropertyItems profiles "recordTypes" NormalizedProfile.recordTypes "recordType") "lightningPage" (by decide),
        countCat_of_const_ne (cat_tabVisibilityItems profiles) "lightningPage" (by decide),
        countCat_of_const_ne (cat_appVisibilityItems profiles) "lightningPage" (by decide)]
    simp
  · rw [compare_summary_eq, countCat_compare profiles includeUnchanged timestamp "recordType",
        countCat_of_const_ne (cat_objectPermissionItems profiles) "recordType" (by decide),
        countCat_of_const_ne (cat_fieldPermissionItems profiles) "recordType" (by decide),
        countCat_of_const_ne (cat_systemPermissionItems profiles) "recordType" (by decide),
        countCat_of_const_ne (cat_arrayPropertyItems profiles "apexClasses" NormalizedProfile.apexClasses "apexClass") "recordType" (by decide),
        countCat_of_const_ne (cat_arrayPropertyItems profiles "visualforcePages" NormalizedProfile.visualforcePages "visualforcePage") "recordType" (by decide),
        countCat_of_const_ne (cat_arrayPropertyItems profiles "lightningPages" NormalizedProfile.lightningPages "lightningPage") "recordType" (by decide),
        countCat_of_const_eq (cat_arrayPropertyItems profiles "recordTypes" NormalizedProfile.recordTypes "recordType"),
        countCat_of_const_ne (cat_tabVisibilityItems profiles) "recordType" (by decide),
        countCat_of_const_ne (cat_appVisibilityItems profiles) "recordType" (by decide)]
    simp
  · rw [compare_summary_eq, countCat_compare profiles includeUnchanged timestamp "tabVisibility",
        countCat_of_const_ne (cat_objectPermissionItems profiles) "tabVisibility" (by decide),
        countCat_of_const_ne (cat_fieldPermissionItems profiles) "tabVisibility" (by decide),
        countCat_of_const_ne (cat_systemPermissionItems profiles) "tabVisibility" (by decide),
        countCat_of_const_ne (cat_arrayPropertyItems profiles "apexClasses" NormalizedProfile.apexClasses "apexClass") "tabVisibility" (by decide),
        countCat_of_const_ne (cat_arrayPropertyItems profiles "visualforcePages" NormalizedProfile.visualforcePages "visualforcePage") "tabVisibility" (by decide),
        countCat_of_const_ne (cat_arrayPropertyItems profiles "lightningPages" NormalizedProfile.lightningPages "lightningPage") "tabVisibility" (by decide),
        countCat_of_const_ne (cat_arrayPropertyItems profiles "recordTypes" NormalizedProfile.recordTypes "recordType") "tabVisibility" (by decide),
        countCat_of_const_eq (cat_tabVisibilityItems profiles),
        countCat_of_const_ne (cat_appVisibilityItems profiles) "tabVisibility" (by decide)]
    simp
  · rw [compare_summary_eq, countCat_compare profiles includeUnchanged timestamp "appVisibility",
        countCat_of_const_ne (cat_objectPermissionItems profiles) "appVisibility" (by decide),
        countCat_of_const_ne (cat_fieldPermissionItems profiles) "appVisibility" (by decide),
        countCat_of_const_ne (cat_systemPermissionItems profiles) "appVisibility" (by decide),
        countCat_of_const_ne (cat_arrayPropertyItems profiles "apexClasses" NormalizedProfile.apexClasses "apexClass") "appVisibility" (by decide),
        countCat_of_const_ne (cat_arrayPropertyItems profiles "visualforcePages" NormalizedProfile.visualforcePages "visualforcePage") "appVisibility" (by decide),
        countCat_of_const_ne (cat_arrayPropertyItems profiles "lightningPages" NormalizedProfile.lightningPages "lightningPage") "appVisibility" (by decide),
        countCat_of_const_ne (cat_arrayPropertyItems profiles "recordTypes" NormalizedProfile.recordTypes "recordType") "appVisibility" (by decide),
        countCat_of_const_ne (cat_tabVisibilityItems profiles) "appVisibility" (by decide),
        countCat_of_const_eq (cat_appVisibilityItems profiles)]
    simp
  · rw [compare_total_eq, compare_differences_eq, compare_summary_eq]
    simp only [List.filter_append, List.length_append, length_filter_emitted]
    unfold summarySum
    simp only []
